import Mathlib

/-
Verification of the ZenSpace orchestration core (`main.py`, class
`ZenSpaceEnhanced`).  The per-frame entry point `process_gestures` is
embedded shallowly as a pure state-transition function
`step : State → Input → State × List Cmd`, where `Cmd` records the calls
issued to the intervention collaborators (overlays, audio, screen warmer).
Timestamps are rationals (seconds); the per-frame boolean signals produced
by the external detector are the fields of `Input`.
-/

set_option allowUnsafeReducibility true in
attribute [semireducible] Rat.sub Rat.add Rat.mul Rat.div Rat.inv Rat.ofScientific

set_option maxRecDepth 40000

namespace ZenSpace

/-- Commands issued to the intervention collaborators.  One constructor per
collaborator call that `process_gestures` / `exit_all_modes` can make. -/
inductive Cmd where
  | energyBreakActivate
  | energyBreakDeactivate
  | zenDimActivate
  | zenDimDeactivate
  | zenMeditationStart
  | zenMeditationStop
  | breathingActivate
  | breathingDeactivate
  | brownNoiseStart
  | brownNoiseStop
  | setWarmth (level : Nat)
  | distractionBeeperStart
  | distractionBeeperStop
  | postureOverlayActivate
  | postureOverlayDeactivate
  | postureBeeperStart
  | postureBeeperStop
deriving DecidableEq, Repr

/-- The `gesture_timers` dict entries that `process_gestures` actually reads
or writes (the source dict lists further names that are never touched). -/
structure Timers where
  open_palm : Option ℚ := none
  both_hands_raised : Option ℚ := none
  hands_covering_ears : Option ℚ := none
  clenched_fist : Option ℚ := none
  fingers_near_mouth : Option ℚ := none
  palms_together : Option ℚ := none
  ok_sign : Option ℚ := none
  peace_sign : Option ℚ := none
deriving DecidableEq, Repr

/-- Mutable state of `ZenSpaceEnhanced` read or written by
`process_gestures` and `exit_all_modes`.  `warmth` mirrors
`ScreenWarmer.warmth` (read back at the nail-biting release branch). -/
structure State where
  timers : Timers := {}
  zen_mode_active : Bool := false
  breathing_active : Bool := false
  quiet_mode_active : Bool := false
  focus_mode_active : Bool := false
  energy_break_active : Bool := false
  yawn_counter : Nat := 0
  yawn_window : List Bool := []
  last_yawn_detected : Bool := false
  looking_down_start : Option ℚ := none
  distraction_warning_active : Bool := false
  bad_posture_active : Bool := false
  bad_posture_start : Option ℚ := none
  nail_biting_count : Nat := 0
  nail_biting_active : Bool := false
  last_nail_biting_detected : Bool := false
  warmth : Nat := 0
deriving DecidableEq, Repr

/-- Per-frame input: current time plus the boolean signals the detector
derives from this frame's landmarks (absent landmarks yield `false`). -/
structure Input where
  now : ℚ := 0
  handPresent : Bool := false
  yawn_detected : Bool := false
  ok_sign : Bool := false
  fingers_near_mouth : Bool := false
  open_palm : Bool := false
  both_hands_raised : Bool := false
  hands_covering_ears : Bool := false
  clenched_fist : Bool := false
  peace_sign : Bool := false
  palms_together : Bool := false
  looking_down : Bool := false
  bad_posture : Bool := false
deriving DecidableEq, Repr

/-- State as built by `ZenSpaceEnhanced.__init__`: everything idle/zero. -/
def initState : State := {}

/-- Append to `yawn_window`, a `deque(maxlen=750)`: the oldest sample is
evicted when the capacity is exceeded. -/
def pushWindow (w : List Bool) (b : Bool) : List Bool :=
  let w' := w ++ [b]
  if 750 < w'.length then w'.tail else w'

/-- Values `[10, 20, 30, 40, 50]` of `nail_biting_warmth_levels`. -/
def nail_biting_warmth_levels : List Nat := [10, 20, 30, 40, 50]

/-- The `ScreenWarmer.set_warmth` clamp `max(0, min(100, value))`. -/
def clampWarmth (v : Nat) : Nat := min 100 v

/-- Lines 209–225: append to the sliding window, count rising edges of the
yawn signal, and trigger the energy break at the threshold of 5. -/
def yawnSection (s : State) (i : Input) : State × List Cmd :=
  let c :=
    if i.yawn_detected && !s.last_yawn_detected then s.yawn_counter + 1
    else s.yawn_counter
  let s := { s with
    yawn_window := pushWindow s.yawn_window i.yawn_detected
    yawn_counter := c
    last_yawn_detected := i.yawn_detected }
  if 5 ≤ s.yawn_counter && !s.energy_break_active then
    ({ s with energy_break_active := true, yawn_counter := 0 },
     [Cmd.energyBreakActivate])
  else (s, [])

/-- Lines 181–186, `_on_energy_break_exit`: the collaborator self-exit
callback clears the break flag, the distinct counter and the window.
`EnergyBreakOverlay.deactivate` (intervention.py lines 264–278) invokes this
callback synchronously, so every `energy_break.deactivate()` call inside the
core re-enters it with these effects. -/
def onEnergyBreakExit (s : State) : State :=
  { s with energy_break_active := false, yawn_counter := 0, yawn_window := [] }

/-- Lines 228–242: while the energy break is active, only the OK sign is
processed; holding it past 1.5 s exits the break.  `energy_break.deactivate()`
(line 237) synchronously runs `_on_energy_break_exit`, zeroing the distinct
counter and clearing the window; the timer is then cleared and the window
cleared once more (line 239). -/
def energyBranch (s : State) (i : Input) : State × List Cmd :=
  if i.handPresent && i.ok_sign then
    match s.timers.ok_sign with
    | none => ({ s with timers := { s.timers with ok_sign := some i.now } }, [])
    | some t =>
      if (3 : ℚ)/2 < i.now - t then
        let s1 := onEnergyBreakExit { s with energy_break_active := false }
        ({ s1 with timers := { s1.timers with ok_sign := none }
                   yawn_window := [] },
         [Cmd.energyBreakDeactivate])
      else (s, [])
  else ({ s with timers := { s.timers with ok_sign := none } }, [])

/-- Lines 134–179, `exit_all_modes`: deactivate whatever is flagged active,
clear the flags, reset nail-biting tracking when (and only when) the anxiety
phase is flagged, and zero the screen warmth. -/
def exitAllModes (s : State) : State × List Cmd :=
  let a :=
    if s.zen_mode_active then
      ({ s with zen_mode_active := false },
       [Cmd.zenDimDeactivate, Cmd.zenMeditationStop])
    else (s, ([] : List Cmd))
  let b :=
    if a.1.breathing_active then
      ({ a.1 with breathing_active := false },
       [Cmd.breathingDeactivate, Cmd.zenMeditationStop])
    else (a.1, [])
  let c :=
    if b.1.quiet_mode_active then
      ({ b.1 with quiet_mode_active := false },
       [Cmd.brownNoiseStop, Cmd.zenDimDeactivate])
    else (b.1, [])
  let d :=
    if c.1.focus_mode_active then
      ({ c.1 with focus_mode_active := false }, [Cmd.zenDimDeactivate])
    else (c.1, [])
  let e :=
    if d.1.energy_break_active then
      (onEnergyBreakExit { d.1 with energy_break_active := false },
       [Cmd.energyBreakDeactivate])
    else (d.1, [])
  let f :=
    if e.1.distraction_warning_active then
      { e.1 with distraction_warning_active := false, looking_down_start := none }
    else e.1
  let g :=
    if f.bad_posture_active then
      ({ f with bad_posture_active := false, bad_posture_start := none },
       [Cmd.postureOverlayDeactivate, Cmd.postureBeeperStop])
    else (f, [])
  let h :=
    if g.1.nail_biting_active then
      { g.1 with nail_biting_active := false
                 nail_biting_count := 0
                 last_nail_biting_detected := false }
    else g.1
  ({ h with warmth := clampWarmth 0 },
   a.2 ++ b.2 ++ c.2 ++ d.2 ++ e.2 ++ g.2 ++ [Cmd.setWarmth 0])

/-- Lines 246–253: the OK-sign global-exit check in the normal (non-break)
path.  Holding past 1.5 s calls `exit_all_modes` and clears the timer. -/
def okSection (s : State) (i : Input) : State × List Cmd :=
  if i.ok_sign then
    match s.timers.ok_sign with
    | none => ({ s with timers := { s.timers with ok_sign := some i.now } }, [])
    | some t =>
      if (3 : ℚ)/2 < i.now - t then
        let r := exitAllModes s
        ({ r.1 with timers := { r.1.timers with ok_sign := none } }, r.2)
      else (s, [])
  else ({ s with timers := { s.timers with ok_sign := none } }, [])

/-- Lines 260–310: progressive nail-biting escalation.  An episode is
counted once per sustained (> 2 s) hold; counts below 6 set warmth from the
lookup table, count 6 and beyond activates breathing plus warmth 70. -/
def nailSection (s : State) (i : Input) : State × List Cmd :=
  if i.fingers_near_mouth then
    match s.timers.fingers_near_mouth with
    | none =>
      ({ s with timers := { s.timers with fingers_near_mouth := some i.now } }, [])
    | some t =>
      if (2 : ℚ) < i.now - t then
        if !s.last_nail_biting_detected then
          let s := { s with
            nail_biting_count := s.nail_biting_count + 1
            last_nail_biting_detected := true }
          if s.nail_biting_count < 6 then
            let lvl := nail_biting_warmth_levels.getD
              (min (s.nail_biting_count - 1) 4) 0
            ({ s with warmth := clampWarmth lvl }, [Cmd.setWarmth lvl])
          else
            let r :=
              if !s.breathing_active then
                ({ s with breathing_active := true },
                 [Cmd.breathingActivate, Cmd.zenMeditationStart])
              else (s, ([] : List Cmd))
            ({ r.1 with warmth := clampWarmth 70, nail_biting_active := true },
             r.2 ++ [Cmd.setWarmth 70])
        else (s, [])
      else (s, [])
  else
    let s := { s with
      last_nail_biting_detected := false
      timers := { s.timers with fingers_near_mouth := none } }
    if !s.nail_biting_active && decide (0 < s.warmth) && decide (s.warmth ≤ 50) then
      ({ s with warmth := clampWarmth 0 }, [Cmd.setWarmth 0])
    else (s, [])

/-- Generic debounce pattern of lines 324–333 and its five sibling blocks:
on a true signal the timer is armed on first sight, and `fired` reports
whether the hold has exceeded `dur`; a false signal clears the timer. -/
def gestureEntry (timer : Option ℚ) (sig : Bool) (now dur : ℚ) :
    Option ℚ × Bool :=
  if sig then
    match timer with
    | none => (some now, false)
    | some t => (some t, decide (dur < now - t))
  else (none, false)

/-- Lines 324–333: the open-palm block (2 s hold activates Zen mode). -/
def palmBlock (s : State) (i : Input) : State × List Cmd :=
  let g := gestureEntry s.timers.open_palm i.open_palm i.now 2
  let s1 := { s with timers := { s.timers with open_palm := g.1 } }
  if g.2 then
    ({ s1 with zen_mode_active := true },
     [Cmd.zenDimActivate, Cmd.zenMeditationStart])
  else (s1, [])

/-- Lines 336–345: the both-hands-raised block (2 s hold activates guided
breathing). -/
def raisedBlock (s : State) (i : Input) : State × List Cmd :=
  let g := gestureEntry s.timers.both_hands_raised i.both_hands_raised i.now 2
  let s1 := { s with timers := { s.timers with both_hands_raised := g.1 } }
  if g.2 then
    ({ s1 with breathing_active := true },
     [Cmd.breathingActivate, Cmd.zenMeditationStart])
  else (s1, [])

/-- Lines 348–358: the hands-covering-ears block (1 s hold activates quiet
mode, guarded so activation is issued only once). -/
def earsBlock (s : State) (i : Input) : State × List Cmd :=
  let g := gestureEntry s.timers.hands_covering_ears i.hands_covering_ears i.now 1
  let s1 := { s with timers := { s.timers with hands_covering_ears := g.1 } }
  if g.2 && !s1.quiet_mode_active then
    ({ s1 with quiet_mode_active := true },
     [Cmd.brownNoiseStart, Cmd.zenDimActivate])
  else (s1, [])

/-- Lines 361–371: the clenched-fist block (3 s hold activates box
breathing plus warmth 60). -/
def fistBlock (s : State) (i : Input) : State × List Cmd :=
  let g := gestureEntry s.timers.clenched_fist i.clenched_fist i.now 3
  let s1 := { s with timers := { s.timers with clenched_fist := g.1 } }
  if g.2 then
    ({ s1 with breathing_active := true, warmth := clampWarmth 60 },
     [Cmd.breathingActivate, Cmd.setWarmth 60, Cmd.zenMeditationStart])
  else (s1, [])

/-- Lines 374–383: the peace-sign block (2 s hold activates focus mode,
guarded so activation is issued only once). -/
def peaceBlock (s : State) (i : Input) : State × List Cmd :=
  let g := gestureEntry s.timers.peace_sign i.peace_sign i.now 2
  let s1 := { s with timers := { s.timers with peace_sign := g.1 } }
  if g.2 && !s1.focus_mode_active then
    ({ s1 with focus_mode_active := true }, [Cmd.zenDimActivate])
  else (s1, [])

/-- Lines 386–395: the palms-together block (2 s hold activates Zen mode
via the mindfulness message). -/
def palmsBlock (s : State) (i : Input) : State × List Cmd :=
  let g := gestureEntry s.timers.palms_together i.palms_together i.now 2
  let s1 := { s with timers := { s.timers with palms_together := g.1 } }
  if g.2 then
    ({ s1 with zen_mode_active := true },
     [Cmd.zenDimActivate, Cmd.zenMeditationStart])
  else (s1, [])

/-- Lines 321–395: the six mode-entry gesture blocks, in source order. -/
def entrySection (s : State) (i : Input) : State × List Cmd :=
  let a := palmBlock s i
  let b := raisedBlock a.1 i
  let c := earsBlock b.1 i
  let d := fistBlock c.1 i
  let e := peaceBlock d.1 i
  let f := palmsBlock e.1 i
  (f.1, a.2 ++ b.2 ++ c.2 ++ d.2 ++ e.2 ++ f.2)

/-- Lines 399–423: looking-down (phone distraction) monitor with its own
3 s timer; warning activates once, clears on the first clean frame. -/
def distractionSection (s : State) (i : Input) : State × List Cmd :=
  if i.looking_down then
    let p : State × ℚ :=
      match s.looking_down_start with
      | none => ({ s with looking_down_start := some i.now }, i.now)
      | some t => (s, t)
    let s := p.1
    if decide ((3 : ℚ) < i.now - p.2) && !s.distraction_warning_active then
      ({ s with distraction_warning_active := true, warmth := clampWarmth 40 },
       [Cmd.setWarmth 40, Cmd.distractionBeeperStart])
    else (s, [])
  else
    let r :=
      if s.distraction_warning_active then
        ({ s with distraction_warning_active := false, warmth := clampWarmth 0 },
         [Cmd.setWarmth 0, Cmd.distractionBeeperStop])
      else (s, ([] : List Cmd))
    ({ r.1 with looking_down_start := none }, r.2)

/-- Lines 430–466: long-horizon bad-posture timer with a 30 s threshold;
a single clean frame clears the accumulation and (if alarmed) all outputs. -/
def postureSection (s : State) (i : Input) : State × List Cmd :=
  if i.bad_posture then
    let p : State × ℚ :=
      match s.bad_posture_start with
      | none => ({ s with bad_posture_start := some i.now }, i.now)
      | some t => (s, t)
    let s := p.1
    if decide ((30 : ℚ) < i.now - p.2) && !s.bad_posture_active then
      ({ s with bad_posture_active := true, warmth := clampWarmth 50 },
       [Cmd.postureOverlayActivate, Cmd.postureBeeperStart, Cmd.setWarmth 50])
    else (s, [])
  else
    if s.bad_posture_active || s.bad_posture_start.isSome then
      let r :=
        if s.bad_posture_active then
          ({ s with warmth := clampWarmth 0 },
           [Cmd.postureOverlayDeactivate, Cmd.postureBeeperStop, Cmd.setWarmth 0])
        else (s, ([] : List Cmd))
      ({ r.1 with bad_posture_active := false, bad_posture_start := none }, r.2)
    else (s, [])

/-- Whether one of the four full-attention gesture modes is flagged active
(the guard of line 314). -/
def modeActive (s : State) : Bool :=
  s.zen_mode_active || s.breathing_active || s.quiet_mode_active ||
    s.focus_mode_active

/-- One call of `process_gestures` (lines 190–466): the sections in source
order, with the early returns of lines 242, 315 and 319. -/
def step (s : State) (i : Input) : State × List Cmd :=
  let a := yawnSection s i
  if a.1.energy_break_active then
    let b := energyBranch a.1 i
    (b.1, a.2 ++ b.2)
  else
    let b := okSection a.1 i
    let c := nailSection b.1 i
    if modeActive c.1 then (c.1, a.2 ++ b.2 ++ c.2)
    else if i.fingers_near_mouth then (c.1, a.2 ++ b.2 ++ c.2)
    else
      let d := entrySection c.1 i
      let e := distractionSection d.1 i
      let f := postureSection e.1 i
      (f.1, a.2 ++ b.2 ++ c.2 ++ d.2 ++ e.2 ++ f.2)

/-- Run a list of frames, collecting each frame's command list. -/
def run (s : State) : List Input → State × List (List Cmd)
  | [] => (s, [])
  | i :: rest =>
    let p := step s i
    let q := run p.1 rest
    (q.1, p.2 :: q.2)

/-- Whether the global-exit branch of lines 249–251 runs on this frame:
the energy break is not active after the fatigue check, the OK sign is
present, and its timer has been held for more than 1.5 s. -/
def exitFires (s : State) (i : Input) : Bool :=
  !((yawnSection s i).1.energy_break_active) && i.ok_sign &&
    (match s.timers.ok_sign with
     | some t => decide ((3 : ℚ)/2 < i.now - t)
     | none => false)

/-- Whether the in-break OK-sign exit of lines 234–239 runs on this frame:
the energy break is active after the fatigue check, a hand with the OK sign
is present, and the timer has been held for more than 1.5 s. -/
def breakExitFires (s : State) (i : Input) : Bool :=
  (yawnSection s i).1.energy_break_active && i.handPresent && i.ok_sign &&
    (match s.timers.ok_sign with
     | some t => decide ((3 : ℚ)/2 < i.now - t)
     | none => false)

/-! Concrete frame builders for the scenario theorems. -/

/-- A frame whose only active signal is the open palm, at time `t`. -/
def palmFrame (t : ℚ) : Input := { now := t, handPresent := true, open_palm := true }

/-- The first `n` frames of a 30 fps stream with the open palm held. -/
def palmFrames (n : Nat) : List Input :=
  (List.range n).map (fun k => palmFrame ((k : ℚ)/30))

/-- A frame whose only active signal is fingers-near-mouth, at time `t`. -/
def nailFrame (t : ℚ) : Input :=
  { now := t, handPresent := true, fingers_near_mouth := true }

/-- A frame with no active signal at time `t`. -/
def idleFrame (t : ℚ) : Input := { now := t }

/-- A frame whose only active signal is the OK sign, at time `t`. -/
def okFrame (t : ℚ) : Input := { now := t, handPresent := true, ok_sign := true }

/-- A frame whose only active signal is a yawn, at time `t`. -/
def yawnFrame (t : ℚ) : Input := { now := t, yawn_detected := true }

/-- A frame whose only active signal is bad posture, at time `t`. -/
def postureFrame (t : ℚ) : Input := { now := t, bad_posture := true }

/-- One nail-biting episode starting at `τ`: the signal is held from `τ`
to `τ + 2.1` (sampled at `τ`, `τ + 1`, `τ + 2.1`, so the 2 s settle
duration is crossed on the third frame) and released at `τ + 2.2`. -/
def episodeFrames (τ : ℚ) : List Input :=
  [nailFrame τ, nailFrame (τ + 1), nailFrame (τ + 21/10), idleFrame (τ + 22/10)]

/-- `N` nail-biting episodes in sequence, episode `j` starting at `3 j`. -/
def scenarioFrames : Nat → List Input
  | 0 => []
  | n + 1 => scenarioFrames n ++ episodeFrames (3 * (n : ℚ))

/-! States threaded through the nail-biting induction. -/

/-- State between episodes, after `k` completed nail-biting episodes of the
escalation scenario: only the escalation fields are away from their initial
values (breathing, anxiety flag and warmth 70 persist from episode 6 on). -/
def mkAfter (k : Nat) (w : List Bool) : State :=
  { breathing_active := decide (6 ≤ k)
    nail_biting_active := decide (6 ≤ k)
    nail_biting_count := k
    yawn_window := w
    warmth := if 6 ≤ k then 70 else 0 }

/-- `mkAfter` with the fingers-near-mouth debounce timer armed at `τ`. -/
def mkArmed (k : Nat) (w : List Bool) (τ : ℚ) : State :=
  { mkAfter k w with timers := { fingers_near_mouth := some τ } }

/-- Warmth right after episode `m` is recognized: the table value for the
habit phase, 70 from the anxiety threshold on. -/
def midWarmth (m : Nat) : Nat :=
  if 6 ≤ m then 70 else nail_biting_warmth_levels.getD (min (m - 1) 4) 0

/-- State right after episode `m` has been recognized, gesture still held. -/
def mkMid (m : Nat) (w : List Bool) (τ : ℚ) : State :=
  { breathing_active := decide (6 ≤ m)
    nail_biting_active := decide (6 ≤ m)
    nail_biting_count := m
    last_nail_biting_detected := true
    timers := { fingers_near_mouth := some τ }
    yawn_window := w
    warmth := midWarmth m }

/-- Commands issued on the frame episode `m` is recognized. -/
def fireCmds (m : Nat) : List Cmd :=
  if m < 6 then [Cmd.setWarmth (nail_biting_warmth_levels.getD (min (m - 1) 4) 0)]
  else if m = 6 then [Cmd.breathingActivate, Cmd.zenMeditationStart, Cmd.setWarmth 70]
  else [Cmd.setWarmth 70]

/-- Commands issued on the release frame ending episode `m`. -/
def releaseCmds (m : Nat) : List Cmd :=
  if m < 6 then [Cmd.setWarmth 0] else []

/-! Concrete states and traces used by individual claim theorems. -/

/-- Idle state in which both the open-palm and the both-hands-raised
debounce timers have been armed since time 0 (both gestures held). -/
def bothArmedState : State :=
  { timers := { open_palm := some 0, both_hands_raised := some 0 } }

/-- Frame at 2.1 s on which the open palm and both-hands-raised signals are
both still asserted, so both cross their 2 s hold thresholds at once. -/
def bothCrossInput : Input :=
  { now := 21/10, handPresent := true, open_palm := true,
    both_hands_raised := true }

/-- Zen mode active, distraction warning active (its beeper running), three
nail-biting episodes counted (habit phase), OK-sign timer armed at 0. -/
def exitTestState : State :=
  { timers := { ok_sign := some 0 }
    zen_mode_active := true
    distraction_warning_active := true
    nail_biting_count := 3 }

/-- Ten consecutive frames, one second apart, of an uninterrupted yawn. -/
def longYawnFrames : List Input := (List.range 10).map (fun k => yawnFrame k)

/-- Five separate yawn onsets (rising edges), one frame of recovery between
each, followed by two quiet frames. -/
def fiveEdgeFrames : List Input :=
  [yawnFrame 0, idleFrame 1, yawnFrame 2, idleFrame 3, yawnFrame 4,
   idleFrame 5, yawnFrame 6, idleFrame 7, yawnFrame 8, idleFrame 9,
   idleFrame 10]

/-- Bad posture held for 29.9 s (sampled at 0, 10 and 29.9 s) and then one
clean frame at 30 s. -/
def postureShortFrames : List Input :=
  [postureFrame 0, postureFrame 10, postureFrame (299/10), idleFrame 30]

/-- Bad posture held past the 30 s threshold (crossing at 30.1 s), held
alarmed until 40 s, then one clean frame at 41 s. -/
def postureAlarmFrames : List Input :=
  [postureFrame 0, postureFrame 29, postureFrame (301/10), postureFrame 31,
   postureFrame 40, idleFrame 41]

/-- Zen mode active while the looking-down and bad-posture monitors have
accumulated state: both condition timers armed since time 0. -/
def zenMonitorState : State :=
  { zen_mode_active := true
    looking_down_start := some 0
    bad_posture_start := some 0 }

/-- Frame at 10 s with the looking-down and bad-posture conditions both
asserted (well past the 3 s and the armed-at-0 thresholds). -/
def monitorInput : Input := { now := 10, looking_down := true, bad_posture := true }

/-- Zen mode active with the open-palm timer armed at 0. -/
def zenPalmState : State :=
  { timers := { open_palm := some 0 }, zen_mode_active := true }

/-- The OK sign held non-stop across four frames spanning 3.3 s. -/
def okHeldFrames : List Input :=
  [okFrame 0, okFrame (8/5), okFrame (17/10), okFrame (33/10)]

/-- Fatigue phase one: five yawn onsets (frames 0–8) trigger the energy
break on the frame at 8 s. -/
def fatigueFrames : List Input :=
  [yawnFrame 0, idleFrame 1, yawnFrame 2, idleFrame 3, yawnFrame 4,
   idleFrame 5, yawnFrame 6, idleFrame 7, yawnFrame 8]

/-- Fatigue phase two, all inside the energy break: five further yawn
onsets (frames 10–18), then the OK sign held from 19 s to 20.6 s, which
exits the break on the last frame. -/
def breakYawnExitFrames : List Input :=
  [idleFrame 9, yawnFrame 10, idleFrame 11, yawnFrame 12, idleFrame 13,
   yawnFrame 14, idleFrame 15, yawnFrame 16, idleFrame 17, yawnFrame 18,
   okFrame 19, okFrame (103/5)]


/-- State in which the posture alarm is already active (condition timer
armed at 0, alarm outputs on, warmth 50). -/
def postureActiveState : State :=
  { bad_posture_active := true, bad_posture_start := some 0, warmth := 50 }

/-! Section-level lemmas: which fields each section of `process_gestures`
leaves untouched, and which collaborator commands it can issue. -/

set_option maxHeartbeats 2000000

lemma yawnSection_preserved (s : State) (i : Input) :
    (yawnSection s i).1.zen_mode_active = s.zen_mode_active ∧
    (yawnSection s i).1.breathing_active = s.breathing_active ∧
    (yawnSection s i).1.quiet_mode_active = s.quiet_mode_active ∧
    (yawnSection s i).1.focus_mode_active = s.focus_mode_active ∧
    (yawnSection s i).1.timers = s.timers ∧
    (yawnSection s i).1.looking_down_start = s.looking_down_start ∧
    (yawnSection s i).1.distraction_warning_active = s.distraction_warning_active ∧
    (yawnSection s i).1.bad_posture_active = s.bad_posture_active ∧
    (yawnSection s i).1.bad_posture_start = s.bad_posture_start ∧
    (yawnSection s i).1.nail_biting_count = s.nail_biting_count ∧
    (yawnSection s i).1.nail_biting_active = s.nail_biting_active ∧
    (yawnSection s i).1.last_nail_biting_detected = s.last_nail_biting_detected ∧
    (yawnSection s i).1.warmth = s.warmth := by
  unfold yawnSection; dsimp only; split <;> split <;> simp

lemma yawnSection_cmds (s : State) (i : Input) :
    ∀ x ∈ (yawnSection s i).2, x = Cmd.energyBreakActivate := by
  unfold yawnSection; dsimp only; split <;> split <;> simp

lemma yawnSection_timers_eq (s : State) (i : Input) :
    (yawnSection s i).1.timers = s.timers := by
  unfold yawnSection; dsimp only; split <;> split <;> rfl

lemma energyBranch_preserved (s : State) (i : Input) :
    (energyBranch s i).1.zen_mode_active = s.zen_mode_active ∧
    (energyBranch s i).1.breathing_active = s.breathing_active ∧
    (energyBranch s i).1.quiet_mode_active = s.quiet_mode_active ∧
    (energyBranch s i).1.focus_mode_active = s.focus_mode_active ∧
    (energyBranch s i).1.last_yawn_detected = s.last_yawn_detected ∧
    (energyBranch s i).1.looking_down_start = s.looking_down_start ∧
    (energyBranch s i).1.distraction_warning_active = s.distraction_warning_active ∧
    (energyBranch s i).1.bad_posture_active = s.bad_posture_active ∧
    (energyBranch s i).1.bad_posture_start = s.bad_posture_start ∧
    (energyBranch s i).1.nail_biting_count = s.nail_biting_count ∧
    (energyBranch s i).1.nail_biting_active = s.nail_biting_active ∧
    (energyBranch s i).1.last_nail_biting_detected = s.last_nail_biting_detected ∧
    (energyBranch s i).1.warmth = s.warmth ∧
    (energyBranch s i).1.timers.open_palm = s.timers.open_palm ∧
    (energyBranch s i).1.timers.both_hands_raised = s.timers.both_hands_raised ∧
    (energyBranch s i).1.timers.hands_covering_ears = s.timers.hands_covering_ears ∧
    (energyBranch s i).1.timers.clenched_fist = s.timers.clenched_fist ∧
    (energyBranch s i).1.timers.fingers_near_mouth = s.timers.fingers_near_mouth ∧
    (energyBranch s i).1.timers.palms_together = s.timers.palms_together ∧
    (energyBranch s i).1.timers.peace_sign = s.timers.peace_sign := by
  unfold energyBranch
  split
  · cases h : s.timers.ok_sign
    · simp [h]
    · simp only [h]
      split <;> simp [onEnergyBreakExit]
  · simp

lemma energyBranch_cmds (s : State) (i : Input) :
    ∀ x ∈ (energyBranch s i).2, x = Cmd.energyBreakDeactivate := by
  unfold energyBranch
  split
  · cases h : s.timers.ok_sign
    · simp [h]
    · simp only [h]
      split <;> simp
  · simp

lemma exitAllModes_eq (s : State) :
    (exitAllModes s).1 =
      { s with zen_mode_active := false
               breathing_active := false
               quiet_mode_active := false
               focus_mode_active := false
               energy_break_active := false
               yawn_counter :=
                 (if s.energy_break_active then 0 else s.yawn_counter)
               yawn_window :=
                 (if s.energy_break_active then [] else s.yawn_window)
               distraction_warning_active := false
               looking_down_start :=
                 (if s.distraction_warning_active then none else s.looking_down_start)
               bad_posture_active := false
               bad_posture_start :=
                 (if s.bad_posture_active then none else s.bad_posture_start)
               nail_biting_active := false
               nail_biting_count :=
                 (if s.nail_biting_active then 0 else s.nail_biting_count)
               last_nail_biting_detected :=
                 (if s.nail_biting_active then false else s.last_nail_biting_detected)
               warmth := 0 } := by
  obtain ⟨t, zen, br, qu, fo, en, yc, yw, ly, lds, dw, bpa, bps, nbc, nba, lnb, wa⟩ := s
  cases zen <;> cases br <;> cases qu <;> cases fo <;> cases en <;> cases dw <;>
    cases bpa <;> cases nba <;> simp [exitAllModes, onEnergyBreakExit, clampWarmth]

lemma exitAllModes_cmds_eq (s : State) :
    (exitAllModes s).2 =
      (if s.zen_mode_active then [Cmd.zenDimDeactivate, Cmd.zenMeditationStop] else []) ++
      (if s.breathing_active then [Cmd.breathingDeactivate, Cmd.zenMeditationStop] else []) ++
      (if s.quiet_mode_active then [Cmd.brownNoiseStop, Cmd.zenDimDeactivate] else []) ++
      (if s.focus_mode_active then [Cmd.zenDimDeactivate] else []) ++
      (if s.energy_break_active then [Cmd.energyBreakDeactivate] else []) ++
      (if s.bad_posture_active then [Cmd.postureOverlayDeactivate, Cmd.postureBeeperStop] else []) ++
      [Cmd.setWarmth 0] := by
  obtain ⟨t, zen, br, qu, fo, en, yc, yw, ly, lds, dw, bpa, bps, nbc, nba, lnb, wa⟩ := s
  cases zen <;> cases br <;> cases qu <;> cases fo <;> cases en <;> cases dw <;>
    cases bpa <;> cases nba <;> simp [exitAllModes, onEnergyBreakExit]


lemma okSection_preserved (s : State) (i : Input) :
    (okSection s i).1.last_yawn_detected = s.last_yawn_detected ∧
    (okSection s i).1.timers.open_palm = s.timers.open_palm ∧
    (okSection s i).1.timers.both_hands_raised = s.timers.both_hands_raised ∧
    (okSection s i).1.timers.hands_covering_ears = s.timers.hands_covering_ears ∧
    (okSection s i).1.timers.clenched_fist = s.timers.clenched_fist ∧
    (okSection s i).1.timers.fingers_near_mouth = s.timers.fingers_near_mouth ∧
    (okSection s i).1.timers.palms_together = s.timers.palms_together ∧
    (okSection s i).1.timers.peace_sign = s.timers.peace_sign := by
  unfold okSection
  split
  · cases ht : s.timers.ok_sign
    · simp
    · dsimp only
      split
      · simp [exitAllModes_eq]
      · simp
  · simp

lemma okSection_eq_of_not_fire (s : State) (i : Input)
    (h : ¬(i.ok_sign = true ∧ ∃ τ, s.timers.ok_sign = some τ ∧ (3 : ℚ)/2 < i.now - τ)) :
    okSection s i =
      ({ s with timers := { s.timers with ok_sign :=
          (if i.ok_sign then some (s.timers.ok_sign.getD i.now) else none) } }, []) := by
  unfold okSection
  split
  · cases ht : s.timers.ok_sign
    · simp [ht]
    · dsimp only
      split
      · exact absurd ⟨by assumption, _, ht, by assumption⟩ h
      · simp only [Option.getD_some]
        rw [← ht]
  · simp_all

lemma okSection_eq_of_fire (s : State) (i : Input) (τ : ℚ)
    (hok : i.ok_sign = true) (ht : s.timers.ok_sign = some τ)
    (hlt : (3 : ℚ)/2 < i.now - τ) :
    okSection s i =
      ({ (exitAllModes s).1 with
          timers := { (exitAllModes s).1.timers with ok_sign := none } },
       (exitAllModes s).2) := by
  unfold okSection
  rw [hok, ht]
  simp [hlt]

lemma nailSection_preserved (s : State) (i : Input) :
    (nailSection s i).1.zen_mode_active = s.zen_mode_active ∧
    (nailSection s i).1.quiet_mode_active = s.quiet_mode_active ∧
    (nailSection s i).1.focus_mode_active = s.focus_mode_active ∧
    (nailSection s i).1.energy_break_active = s.energy_break_active ∧
    (nailSection s i).1.yawn_counter = s.yawn_counter ∧
    (nailSection s i).1.yawn_window = s.yawn_window ∧
    (nailSection s i).1.last_yawn_detected = s.last_yawn_detected ∧
    (nailSection s i).1.looking_down_start = s.looking_down_start ∧
    (nailSection s i).1.distraction_warning_active = s.distraction_warning_active ∧
    (nailSection s i).1.bad_posture_active = s.bad_posture_active ∧
    (nailSection s i).1.bad_posture_start = s.bad_posture_start ∧
    (nailSection s i).1.timers.open_palm = s.timers.open_palm ∧
    (nailSection s i).1.timers.both_hands_raised = s.timers.both_hands_raised ∧
    (nailSection s i).1.timers.hands_covering_ears = s.timers.hands_covering_ears ∧
    (nailSection s i).1.timers.clenched_fist = s.timers.clenched_fist ∧
    (nailSection s i).1.timers.palms_together = s.timers.palms_together ∧
    (nailSection s i).1.timers.peace_sign = s.timers.peace_sign ∧
    (nailSection s i).1.timers.ok_sign = s.timers.ok_sign := by
  unfold nailSection
  dsimp only
  split
  · cases ht : s.timers.fingers_near_mouth
    · simp
    · dsimp only
      split
      · split
        · split
          · simp
          · split <;> simp
        · simp
      · simp
  · split <;> simp

lemma nailSection_cmds (s : State) (i : Input) :
    ∀ x ∈ (nailSection s i).2,
      x = Cmd.breathingActivate ∨ x = Cmd.zenMeditationStart ∨
        ∃ n, x = Cmd.setWarmth n := by
  unfold nailSection
  dsimp only
  split
  · cases ht : s.timers.fingers_near_mouth
    · simp
    · dsimp only
      split
      · split
        · split
          · simp
          · split <;> simp
        · simp
      · simp
  · split <;> simp

lemma nailSection_of_no_signal (s : State) (i : Input)
    (h : i.fingers_near_mouth = false) :
    (nailSection s i).1.breathing_active = s.breathing_active ∧
    (nailSection s i).1.nail_biting_count = s.nail_biting_count ∧
    (nailSection s i).1.nail_biting_active = s.nail_biting_active ∧
    (nailSection s i).1.timers.fingers_near_mouth = none := by
  unfold nailSection
  rw [h]
  dsimp only
  split
  · simp_all
  · split <;> simp_all

lemma palmBlock_preserved (s : State) (i : Input) :
    (palmBlock s i).1.breathing_active = s.breathing_active ∧
    (palmBlock s i).1.quiet_mode_active = s.quiet_mode_active ∧
    (palmBlock s i).1.focus_mode_active = s.focus_mode_active ∧
    (palmBlock s i).1.energy_break_active = s.energy_break_active ∧
    (palmBlock s i).1.yawn_counter = s.yawn_counter ∧
    (palmBlock s i).1.yawn_window = s.yawn_window ∧
    (palmBlock s i).1.last_yawn_detected = s.last_yawn_detected ∧
    (palmBlock s i).1.looking_down_start = s.looking_down_start ∧
    (palmBlock s i).1.distraction_warning_active = s.distraction_warning_active ∧
    (palmBlock s i).1.bad_posture_active = s.bad_posture_active ∧
    (palmBlock s i).1.bad_posture_start = s.bad_posture_start ∧
    (palmBlock s i).1.nail_biting_count = s.nail_biting_count ∧
    (palmBlock s i).1.nail_biting_active = s.nail_biting_active ∧
    (palmBlock s i).1.last_nail_biting_detected = s.last_nail_biting_detected ∧
    (palmBlock s i).1.warmth = s.warmth ∧
    (palmBlock s i).1.timers.both_hands_raised = s.timers.both_hands_raised ∧
    (palmBlock s i).1.timers.hands_covering_ears = s.timers.hands_covering_ears ∧
    (palmBlock s i).1.timers.clenched_fist = s.timers.clenched_fist ∧
    (palmBlock s i).1.timers.fingers_near_mouth = s.timers.fingers_near_mouth ∧
    (palmBlock s i).1.timers.palms_together = s.timers.palms_together ∧
    (palmBlock s i).1.timers.ok_sign = s.timers.ok_sign ∧
    (palmBlock s i).1.timers.peace_sign = s.timers.peace_sign ∧
    (palmBlock s i).1.timers.open_palm =
      (gestureEntry s.timers.open_palm i.open_palm i.now 2).1 := by
  unfold palmBlock; dsimp only; split <;> simp

lemma palmBlock_cmds (s : State) (i : Input) :
    ∀ x ∈ (palmBlock s i).2,
      x = Cmd.zenDimActivate ∨ x = Cmd.zenMeditationStart := by
  unfold palmBlock; dsimp only; split <;> simp

lemma raisedBlock_preserved (s : State) (i : Input) :
    (raisedBlock s i).1.zen_mode_active = s.zen_mode_active ∧
    (raisedBlock s i).1.quiet_mode_active = s.quiet_mode_active ∧
    (raisedBlock s i).1.focus_mode_active = s.focus_mode_active ∧
    (raisedBlock s i).1.energy_break_active = s.energy_break_active ∧
    (raisedBlock s i).1.yawn_counter = s.yawn_counter ∧
    (raisedBlock s i).1.yawn_window = s.yawn_window ∧
    (raisedBlock s i).1.last_yawn_detected = s.last_yawn_detected ∧
    (raisedBlock s i).1.looking_down_start = s.looking_down_start ∧
    (raisedBlock s i).1.distraction_warning_active = s.distraction_warning_active ∧
    (raisedBlock s i).1.bad_posture_active = s.bad_posture_active ∧
    (raisedBlock s i).1.bad_posture_start = s.bad_posture_start ∧
    (raisedBlock s i).1.nail_biting_count = s.nail_biting_count ∧
    (raisedBlock s i).1.nail_biting_active = s.nail_biting_active ∧
    (raisedBlock s i).1.last_nail_biting_detected = s.last_nail_biting_detected ∧
    (raisedBlock s i).1.warmth = s.warmth ∧
    (raisedBlock s i).1.timers.open_palm = s.timers.open_palm ∧
    (raisedBlock s i).1.timers.hands_covering_ears = s.timers.hands_covering_ears ∧
    (raisedBlock s i).1.timers.clenched_fist = s.timers.clenched_fist ∧
    (raisedBlock s i).1.timers.fingers_near_mouth = s.timers.fingers_near_mouth ∧
    (raisedBlock s i).1.timers.palms_together = s.timers.palms_together ∧
    (raisedBlock s i).1.timers.ok_sign = s.timers.ok_sign ∧
    (raisedBlock s i).1.timers.peace_sign = s.timers.peace_sign ∧
    (raisedBlock s i).1.timers.both_hands_raised =
      (gestureEntry s.timers.both_hands_raised i.both_hands_raised i.now 2).1 := by
  unfold raisedBlock; dsimp only; split <;> simp

lemma raisedBlock_cmds (s : State) (i : Input) :
    ∀ x ∈ (raisedBlock s i).2,
      x = Cmd.breathingActivate ∨ x = Cmd.zenMeditationStart := by
  unfold raisedBlock; dsimp only; split <;> simp

lemma earsBlock_preserved (s : State) (i : Input) :
    (earsBlock s i).1.zen_mode_active = s.zen_mode_active ∧
    (earsBlock s i).1.breathing_active = s.breathing_active ∧
    (earsBlock s i).1.focus_mode_active = s.focus_mode_active ∧
    (earsBlock s i).1.energy_break_active = s.energy_break_active ∧
    (earsBlock s i).1.yawn_counter = s.yawn_counter ∧
    (earsBlock s i).1.yawn_window = s.yawn_window ∧
    (earsBlock s i).1.last_yawn_detected = s.last_yawn_detected ∧
    (earsBlock s i).1.looking_down_start = s.looking_down_start ∧
    (earsBlock s i).1.distraction_warning_active = s.distraction_warning_active ∧
    (earsBlock s i).1.bad_posture_active = s.bad_posture_active ∧
    (earsBlock s i).1.bad_posture_start = s.bad_posture_start ∧
    (earsBlock s i).1.nail_biting_count = s.nail_biting_count ∧
    (earsBlock s i).1.nail_biting_active = s.nail_biting_active ∧
    (earsBlock s i).1.last_nail_biting_detected = s.last_nail_biting_detected ∧
    (earsBlock s i).1.warmth = s.warmth ∧
    (earsBlock s i).1.timers.open_palm = s.timers.open_palm ∧
    (earsBlock s i).1.timers.both_hands_raised = s.timers.both_hands_raised ∧
    (earsBlock s i).1.timers.clenched_fist = s.timers.clenched_fist ∧
    (earsBlock s i).1.timers.fingers_near_mouth = s.timers.fingers_near_mouth ∧
    (earsBlock s i).1.timers.palms_together = s.timers.palms_together ∧
    (earsBlock s i).1.timers.ok_sign = s.timers.ok_sign ∧
    (earsBlock s i).1.timers.peace_sign = s.timers.peace_sign ∧
    (earsBlock s i).1.timers.hands_covering_ears =
      (gestureEntry s.timers.hands_covering_ears i.hands_covering_ears i.now 1).1 := by
  unfold earsBlock; dsimp only; split <;> simp

lemma earsBlock_cmds (s : State) (i : Input) :
    ∀ x ∈ (earsBlock s i).2,
      x = Cmd.brownNoiseStart ∨ x = Cmd.zenDimActivate := by
  unfold earsBlock; dsimp only; split <;> simp

lemma fistBlock_preserved (s : State) (i : Input) :
    (fistBlock s i).1.zen_mode_active = s.zen_mode_active ∧
    (fistBlock s i).1.quiet_mode_active = s.quiet_mode_active ∧
    (fistBlock s i).1.focus_mode_active = s.focus_mode_active ∧
    (fistBlock s i).1.energy_break_active = s.energy_break_active ∧
    (fistBlock s i).1.yawn_counter = s.yawn_counter ∧
    (fistBlock s i).1.yawn_window = s.yawn_window ∧
    (fistBlock s i).1.last_yawn_detected = s.last_yawn_detected ∧
    (fistBlock s i).1.looking_down_start = s.looking_down_start ∧
    (fistBlock s i).1.distraction_warning_active = s.distraction_warning_active ∧
    (fistBlock s i).1.bad_posture_active = s.bad_posture_active ∧
    (fistBlock s i).1.bad_posture_start = s.bad_posture_start ∧
    (fistBlock s i).1.nail_biting_count = s.nail_biting_count ∧
    (fistBlock s i).1.nail_biting_active = s.nail_biting_active ∧
    (fistBlock s i).1.last_nail_biting_detected = s.last_nail_biting_detected ∧
    (fistBlock s i).1.timers.open_palm = s.timers.open_palm ∧
    (fistBlock s i).1.timers.both_hands_raised = s.timers.both_hands_raised ∧
    (fistBlock s i).1.timers.hands_covering_ears = s.timers.hands_covering_ears ∧
    (fistBlock s i).1.timers.fingers_near_mouth = s.timers.fingers_near_mouth ∧
    (fistBlock s i).1.timers.palms_together = s.timers.palms_together ∧
    (fistBlock s i).1.timers.ok_sign = s.timers.ok_sign ∧
    (fistBlock s i).1.timers.peace_sign = s.timers.peace_sign ∧
    (fistBlock s i).1.timers.clenched_fist =
      (gestureEntry s.timers.clenched_fist i.clenched_fist i.now 3).1 := by
  unfold fistBlock; dsimp only; split <;> simp

lemma fistBlock_cmds (s : State) (i : Input) :
    ∀ x ∈ (fistBlock s i).2,
      x = Cmd.breathingActivate ∨ x = Cmd.setWarmth 60 ∨ x = Cmd.zenMeditationStart := by
  unfold fistBlock; dsimp only; split <;> simp

lemma peaceBlock_preserved (s : State) (i : Input) :
    (peaceBlock s i).1.zen_mode_active = s.zen_mode_active ∧
    (peaceBlock s i).1.breathing_active = s.breathing_active ∧
    (peaceBlock s i).1.quiet_mode_active = s.quiet_mode_active ∧
    (peaceBlock s i).1.energy_break_active = s.energy_break_active ∧
    (peaceBlock s i).1.yawn_counter = s.yawn_counter ∧
    (peaceBlock s i).1.yawn_window = s.yawn_window ∧
    (peaceBlock s i).1.last_yawn_detected = s.last_yawn_detected ∧
    (peaceBlock s i).1.looking_down_start = s.looking_down_start ∧
    (peaceBlock s i).1.distraction_warning_active = s.distraction_warning_active ∧
    (peaceBlock s i).1.bad_posture_active = s.bad_posture_active ∧
    (peaceBlock s i).1.bad_posture_start = s.bad_posture_start ∧
    (peaceBlock s i).1.nail_biting_count = s.nail_biting_count ∧
    (peaceBlock s i).1.nail_biting_active = s.nail_biting_active ∧
    (peaceBlock s i).1.last_nail_biting_detected = s.last_nail_biting_detected ∧
    (peaceBlock s i).1.warmth = s.warmth ∧
    (peaceBlock s i).1.timers.open_palm = s.timers.open_palm ∧
    (peaceBlock s i).1.timers.both_hands_raised = s.timers.both_hands_raised ∧
    (peaceBlock s i).1.timers.hands_covering_ears = s.timers.hands_covering_ears ∧
    (peaceBlock s i).1.timers.clenched_fist = s.timers.clenched_fist ∧
    (peaceBlock s i).1.timers.fingers_near_mouth = s.timers.fingers_near_mouth ∧
    (peaceBlock s i).1.timers.palms_together = s.timers.palms_together ∧
    (peaceBlock s i).1.timers.ok_sign = s.timers.ok_sign ∧
    (peaceBlock s i).1.timers.peace_sign =
      (gestureEntry s.timers.peace_sign i.peace_sign i.now 2).1 := by
  unfold peaceBlock; dsimp only; split <;> simp

lemma peaceBlock_cmds (s : State) (i : Input) :
    ∀ x ∈ (peaceBlock s i).2,
      x = Cmd.zenDimActivate := by
  unfold peaceBlock; dsimp only; split <;> simp

lemma palmsBlock_preserved (s : State) (i : Input) :
    (palmsBlock s i).1.breathing_active = s.breathing_active ∧
    (palmsBlock s i).1.quiet_mode_active = s.quiet_mode_active ∧
    (palmsBlock s i).1.focus_mode_active = s.focus_mode_active ∧
    (palmsBlock s i).1.energy_break_active = s.energy_break_active ∧
    (palmsBlock s i).1.yawn_counter = s.yawn_counter ∧
    (palmsBlock s i).1.yawn_window = s.yawn_window ∧
    (palmsBlock s i).1.last_yawn_detected = s.last_yawn_detected ∧
    (palmsBlock s i).1.looking_down_start = s.looking_down_start ∧
    (palmsBlock s i).1.distraction_warning_active = s.distraction_warning_active ∧
    (palmsBlock s i).1.bad_posture_active = s.bad_posture_active ∧
    (palmsBlock s i).1.bad_posture_start = s.bad_posture_start ∧
    (palmsBlock s i).1.nail_biting_count = s.nail_biting_count ∧
    (palmsBlock s i).1.nail_biting_active = s.nail_biting_active ∧
    (palmsBlock s i).1.last_nail_biting_detected = s.last_nail_biting_detected ∧
    (palmsBlock s i).1.warmth = s.warmth ∧
    (palmsBlock s i).1.timers.open_palm = s.timers.open_palm ∧
    (palmsBlock s i).1.timers.both_hands_raised = s.timers.both_hands_raised ∧
    (palmsBlock s i).1.timers.hands_covering_ears = s.timers.hands_covering_ears ∧
    (palmsBlock s i).1.timers.clenched_fist = s.timers.clenched_fist ∧
    (palmsBlock s i).1.timers.fingers_near_mouth = s.timers.fingers_near_mouth ∧
    (palmsBlock s i).1.timers.ok_sign = s.timers.ok_sign ∧
    (palmsBlock s i).1.timers.peace_sign = s.timers.peace_sign ∧
    (palmsBlock s i).1.timers.palms_together =
      (gestureEntry s.timers.palms_together i.palms_together i.now 2).1 := by
  unfold palmsBlock; dsimp only; split <;> simp

lemma palmsBlock_cmds (s : State) (i : Input) :
    ∀ x ∈ (palmsBlock s i).2,
      x = Cmd.zenDimActivate ∨ x = Cmd.zenMeditationStart := by
  unfold palmsBlock; dsimp only; split <;> simp

lemma entrySection_preserved (s : State) (i : Input) :
    (entrySection s i).1.energy_break_active = s.energy_break_active ∧
    (entrySection s i).1.yawn_counter = s.yawn_counter ∧
    (entrySection s i).1.yawn_window = s.yawn_window ∧
    (entrySection s i).1.last_yawn_detected = s.last_yawn_detected ∧
    (entrySection s i).1.looking_down_start = s.looking_down_start ∧
    (entrySection s i).1.distraction_warning_active = s.distraction_warning_active ∧
    (entrySection s i).1.bad_posture_active = s.bad_posture_active ∧
    (entrySection s i).1.bad_posture_start = s.bad_posture_start ∧
    (entrySection s i).1.nail_biting_count = s.nail_biting_count ∧
    (entrySection s i).1.nail_biting_active = s.nail_biting_active ∧
    (entrySection s i).1.last_nail_biting_detected = s.last_nail_biting_detected ∧
    (entrySection s i).1.timers.ok_sign = s.timers.ok_sign ∧
    (entrySection s i).1.timers.fingers_near_mouth = s.timers.fingers_near_mouth := by
  unfold entrySection
  dsimp only
  simp only [palmBlock_preserved, raisedBlock_preserved, earsBlock_preserved,
    fistBlock_preserved, peaceBlock_preserved, palmsBlock_preserved, and_self]

lemma entrySection_timers (s : State) (i : Input) :
    (entrySection s i).1.timers.open_palm =
      (gestureEntry s.timers.open_palm i.open_palm i.now 2).1 ∧
    (entrySection s i).1.timers.both_hands_raised =
      (gestureEntry s.timers.both_hands_raised i.both_hands_raised i.now 2).1 ∧
    (entrySection s i).1.timers.hands_covering_ears =
      (gestureEntry s.timers.hands_covering_ears i.hands_covering_ears i.now 1).1 ∧
    (entrySection s i).1.timers.clenched_fist =
      (gestureEntry s.timers.clenched_fist i.clenched_fist i.now 3).1 ∧
    (entrySection s i).1.timers.peace_sign =
      (gestureEntry s.timers.peace_sign i.peace_sign i.now 2).1 ∧
    (entrySection s i).1.timers.palms_together =
      (gestureEntry s.timers.palms_together i.palms_together i.now 2).1 := by
  unfold entrySection
  dsimp only
  simp only [palmBlock_preserved, raisedBlock_preserved, earsBlock_preserved,
    fistBlock_preserved, peaceBlock_preserved, palmsBlock_preserved, and_self]

lemma entrySection_cmds (s : State) (i : Input) :
    ∀ x ∈ (entrySection s i).2,
      x = Cmd.zenDimActivate ∨ x = Cmd.zenMeditationStart ∨
        x = Cmd.breathingActivate ∨ x = Cmd.brownNoiseStart ∨
        x = Cmd.setWarmth 60 := by
  unfold entrySection
  dsimp only
  intro x hx
  simp only [List.mem_append] at hx
  rcases hx with ((((hx | hx) | hx) | hx) | hx) | hx
  · rcases palmBlock_cmds _ _ _ hx with h | h <;> simp [h]
  · rcases raisedBlock_cmds _ _ _ hx with h | h <;> simp [h]
  · rcases earsBlock_cmds _ _ _ hx with h | h <;> simp [h]
  · rcases fistBlock_cmds _ _ _ hx with h | h | h <;> simp [h]
  · have h := peaceBlock_cmds _ _ _ hx
    simp [h]
  · rcases palmsBlock_cmds _ _ _ hx with h | h <;> simp [h]

lemma distractionSection_preserved (s : State) (i : Input) :
    (distractionSection s i).1.zen_mode_active = s.zen_mode_active ∧
    (distractionSection s i).1.breathing_active = s.breathing_active ∧
    (distractionSection s i).1.quiet_mode_active = s.quiet_mode_active ∧
    (distractionSection s i).1.focus_mode_active = s.focus_mode_active ∧
    (distractionSection s i).1.energy_break_active = s.energy_break_active ∧
    (distractionSection s i).1.yawn_counter = s.yawn_counter ∧
    (distractionSection s i).1.yawn_window = s.yawn_window ∧
    (distractionSection s i).1.last_yawn_detected = s.last_yawn_detected ∧
    (distractionSection s i).1.bad_posture_active = s.bad_posture_active ∧
    (distractionSection s i).1.bad_posture_start = s.bad_posture_start ∧
    (distractionSection s i).1.nail_biting_count = s.nail_biting_count ∧
    (distractionSection s i).1.nail_biting_active = s.nail_biting_active ∧
    (distractionSection s i).1.last_nail_biting_detected = s.last_nail_biting_detected ∧
    (distractionSection s i).1.timers = s.timers := by
  unfold distractionSection
  dsimp only
  split
  · cases h : s.looking_down_start <;> dsimp only <;> split <;> simp
  · split <;> simp

lemma distractionSection_cmds (s : State) (i : Input) :
    ∀ x ∈ (distractionSection s i).2,
      x = Cmd.setWarmth 40 ∨ x = Cmd.distractionBeeperStart ∨
        x = Cmd.setWarmth 0 ∨ x = Cmd.distractionBeeperStop := by
  unfold distractionSection
  dsimp only
  split
  · cases h : s.looking_down_start <;> dsimp only <;> split <;> simp
  · split <;> simp

lemma postureSection_preserved (s : State) (i : Input) :
    (postureSection s i).1.zen_mode_active = s.zen_mode_active ∧
    (postureSection s i).1.breathing_active = s.breathing_active ∧
    (postureSection s i).1.quiet_mode_active = s.quiet_mode_active ∧
    (postureSection s i).1.focus_mode_active = s.focus_mode_active ∧
    (postureSection s i).1.energy_break_active = s.energy_break_active ∧
    (postureSection s i).1.yawn_counter = s.yawn_counter ∧
    (postureSection s i).1.yawn_window = s.yawn_window ∧
    (postureSection s i).1.last_yawn_detected = s.last_yawn_detected ∧
    (postureSection s i).1.looking_down_start = s.looking_down_start ∧
    (postureSection s i).1.distraction_warning_active = s.distraction_warning_active ∧
    (postureSection s i).1.nail_biting_count = s.nail_biting_count ∧
    (postureSection s i).1.nail_biting_active = s.nail_biting_active ∧
    (postureSection s i).1.last_nail_biting_detected = s.last_nail_biting_detected ∧
    (postureSection s i).1.timers = s.timers := by
  unfold postureSection
  dsimp only
  split
  · cases h : s.bad_posture_start <;> dsimp only <;> split <;> simp
  · split
    · split <;> simp
    · simp

lemma postureSection_cmds (s : State) (i : Input) :
    ∀ x ∈ (postureSection s i).2,
      x = Cmd.postureOverlayActivate ∨ x = Cmd.postureBeeperStart ∨
        x = Cmd.setWarmth 50 ∨ x = Cmd.postureOverlayDeactivate ∨
        x = Cmd.postureBeeperStop ∨ x = Cmd.setWarmth 0 := by
  unfold postureSection
  dsimp only
  split
  · cases h : s.bad_posture_start <;> dsimp only <;> split <;> simp
  · split
    · split <;> simp
    · simp

lemma postureSection_no_activate_of_active (s : State) (i : Input)
    (h : s.bad_posture_active = true) :
    Cmd.postureOverlayActivate ∉ (postureSection s i).2 := by
  unfold postureSection
  dsimp only
  split
  · cases ht : s.bad_posture_start <;> dsimp only <;> split <;> simp_all
  · split
    · simp_all
    · simp

lemma postureSection_no_activate_of_cleared (s : State) (i : Input)
    (h : s.bad_posture_start = none) :
    Cmd.postureOverlayActivate ∉ (postureSection s i).2 := by
  unfold postureSection
  dsimp only
  split
  · rw [h]
    dsimp only
    split
    · rename_i hc
      exfalso
      simp only [Bool.and_eq_true, decide_eq_true_eq, sub_self] at hc
      exact absurd hc.1 (by norm_num)
    · simp
  · split
    · simp_all
    · simp


lemma yawnSection_energy_mono (s : State) (i : Input)
    (h : s.energy_break_active = true) :
    (yawnSection s i).1.energy_break_active = true := by
  unfold yawnSection; dsimp only; split <;> simp_all

lemma gestureEntry_timer (T : Option ℚ) (sig : Bool) (now dur : ℚ) :
    (gestureEntry T sig now dur).1 =
      (if sig then some (T.getD now) else none) := by
  unfold gestureEntry
  cases sig
  · simp
  · cases T <;> simp

lemma nailSection_breathing_mono (s : State) (i : Input)
    (h : s.breathing_active = true) :
    (nailSection s i).1.breathing_active = true := by
  unfold nailSection
  dsimp only
  split
  · cases ht : s.timers.fingers_near_mouth <;> dsimp only
    · simp_all
    · split
      · split
        · split
          · simp_all
          · split <;> simp_all
        · simp_all
      · simp_all
  · split <;> simp_all

lemma no_ok_fire_of_exitFires_false (s : State) (i : Input)
    (hen : (yawnSection s i).1.energy_break_active = false)
    (hx : exitFires s i = false) :
    ¬(i.ok_sign = true ∧ ∃ τ, (yawnSection s i).1.timers.ok_sign = some τ ∧
        (3 : ℚ)/2 < i.now - τ) := by
  rintro ⟨hok, τ, ht, hlt⟩
  rw [yawnSection_timers_eq] at ht
  unfold exitFires at hx
  rw [hen, hok, ht] at hx
  simp [hlt] at hx

lemma exitFires_true_parts (s : State) (i : Input)
    (h : exitFires s i = true) :
    (yawnSection s i).1.energy_break_active = false ∧ i.ok_sign = true ∧
      ∃ τ, s.timers.ok_sign = some τ ∧ (3 : ℚ)/2 < i.now - τ := by
  unfold exitFires at h
  cases ht : s.timers.ok_sign
  · rw [ht] at h; simp_all
  · rw [ht] at h
    simp only [Bool.and_eq_true, Bool.not_eq_true', decide_eq_true_eq] at h
    exact ⟨h.1.1, h.1.2, _, rfl, h.2⟩

lemma exitAllModes_no_posture_or_distraction (s : State) :
    Cmd.postureOverlayActivate ∉ (exitAllModes s).2 ∧
      Cmd.distractionBeeperStart ∉ (exitAllModes s).2 ∧
      Cmd.distractionBeeperStop ∉ (exitAllModes s).2 ∧
      Cmd.postureBeeperStart ∉ (exitAllModes s).2 := by
  rw [exitAllModes_cmds_eq]
  simp only [List.mem_append, not_or]
  split_ifs <;> simp

lemma okSection_yawn_of_no_break (s : State) (i : Input)
    (h : s.energy_break_active = false) :
    (okSection s i).1.yawn_counter = s.yawn_counter ∧
    (okSection s i).1.yawn_window = s.yawn_window := by
  unfold okSection
  split
  · cases ht : s.timers.ok_sign
    · simp
    · dsimp only
      split
      · rw [exitAllModes_eq]
        simp [h]
      · simp
  · simp

lemma step_counter (s : State) (i : Input) :
    (step s i).1.yawn_counter =
      (if breakExitFires s i = true then 0
       else (yawnSection s i).1.yawn_counter) := by
  unfold step breakExitFires
  dsimp only
  split
  · rename_i hen
    simp only [hen, Bool.true_and]
    unfold energyBranch
    cases hh : i.handPresent <;> cases ho : i.ok_sign <;>
      simp only [hh, ho, Bool.and_self, Bool.and_true, Bool.true_and,
        Bool.and_false, Bool.false_and, Bool.if_false_left, if_true, if_false]
    · simp
    · simp
    · simp
    · cases ht : s.timers.ok_sign
      · rw [yawnSection_timers_eq, ht]
        simp
      · rw [yawnSection_timers_eq, ht]
        dsimp only
        split <;> rename_i hlt <;> simp [hlt, onEnergyBreakExit]
  · rename_i hen
    have hen' : (yawnSection s i).1.energy_break_active = false := by
      simpa using hen
    have hok := okSection_yawn_of_no_break ((yawnSection s i).1) i hen'
    simp only [hen', Bool.false_and, Bool.false_eq_true, if_false]
    split
    · simp only [nailSection_preserved, hok.1]
    · split
      · simp only [nailSection_preserved, hok.1]
      · simp only [postureSection_preserved, distractionSection_preserved,
          entrySection_preserved, nailSection_preserved, hok.1]


lemma okSection_not_fire (s : State) (i : Input)
    (h : ¬(i.ok_sign = true ∧ ∃ τ, s.timers.ok_sign = some τ ∧
        (3 : ℚ)/2 < i.now - τ)) :
    (okSection s i).1.zen_mode_active = s.zen_mode_active ∧
    (okSection s i).1.breathing_active = s.breathing_active ∧
    (okSection s i).1.quiet_mode_active = s.quiet_mode_active ∧
    (okSection s i).1.focus_mode_active = s.focus_mode_active ∧
    (okSection s i).1.energy_break_active = s.energy_break_active ∧
    (okSection s i).1.looking_down_start = s.looking_down_start ∧
    (okSection s i).1.distraction_warning_active = s.distraction_warning_active ∧
    (okSection s i).1.bad_posture_active = s.bad_posture_active ∧
    (okSection s i).1.bad_posture_start = s.bad_posture_start ∧
    (okSection s i).1.nail_biting_count = s.nail_biting_count ∧
    (okSection s i).1.nail_biting_active = s.nail_biting_active ∧
    (okSection s i).1.last_nail_biting_detected = s.last_nail_biting_detected ∧
    (okSection s i).1.warmth = s.warmth ∧
    (okSection s i).2 = [] := by
  rw [okSection_eq_of_not_fire s i h]
  simp

/-- Claim C1, amended.  Across frames the mutual exclusion holds: on any
frame that starts with one of the four full-attention mode flags set, and on
which the global exit does not fire and the nail-biting signal is absent,
none of the four mode flags changes — the mode-entry gesture section is
never reached.  (The within-frame tie-break half of the original claim is
refuted by `zen_C1_counterexample`: the guard of line 314 is evaluated once,
before the gesture section, so two gestures crossing their thresholds in the
same frame from Idle both transition.) -/
theorem zen_C1_amended (s : State) (i : Input)
    (hm : modeActive s = true) (hx : exitFires s i = false)
    (hn : i.fingers_near_mouth = false) :
    (step s i).1.zen_mode_active = s.zen_mode_active ∧
    (step s i).1.breathing_active = s.breathing_active ∧
    (step s i).1.quiet_mode_active = s.quiet_mode_active ∧
    (step s i).1.focus_mode_active = s.focus_mode_active := by
  unfold step
  dsimp only
  split
  · simp only [energyBranch_preserved, yawnSection_preserved, and_self]
  · rename_i hen
    have hcond := no_ok_fire_of_exitFires_false s i (by simpa using hen) hx
    have hok := okSection_not_fire ((yawnSection s i).1) i hcond
    split
    · simp only [nailSection_preserved, nailSection_of_no_signal, hn, hok,
        yawnSection_preserved, and_self]
    · rename_i hguard
      exfalso
      apply hguard
      unfold modeActive at hm ⊢
      simp only [nailSection_preserved, nailSection_of_no_signal, hn, hok,
        yawnSection_preserved]
      exact hm

lemma guard_true_of_modeActive (s : State) (i : Input)
    (hcond : ¬(i.ok_sign = true ∧ ∃ τ, (yawnSection s i).1.timers.ok_sign = some τ ∧
        (3 : ℚ)/2 < i.now - τ))
    (hm : modeActive s = true) :
    modeActive (nailSection ((okSection (yawnSection s i).1 i).1) i).1 = true := by
  have hok := okSection_not_fire ((yawnSection s i).1) i hcond
  unfold modeActive at hm ⊢
  cases hbr : s.breathing_active
  · simp only [nailSection_preserved, hok, yawnSection_preserved]
    simp only [hbr, Bool.or_false, Bool.false_or] at hm ⊢
    simp only [Bool.or_eq_true] at hm ⊢
    tauto
  · have hb : (nailSection ((okSection (yawnSection s i).1 i).1) i).1.breathing_active = true := by
      apply nailSection_breathing_mono
      simp only [hok, yawnSection_preserved, hbr]
    simp [hb]

/-- Claim C6, amended.  The passive monitors are NOT evaluated while a
full-attention mode is active: on any frame starting with one of the four
mode flags set on which the global exit does not fire, the looking-down and
bad-posture timers and warning flags are left untouched and no monitor
command (distraction beeper, posture overlay or beeper) is issued. -/
theorem zen_C6_amended (s : State) (i : Input)
    (hm : modeActive s = true) (hx : exitFires s i = false) :
    (step s i).1.looking_down_start = s.looking_down_start ∧
    (step s i).1.distraction_warning_active = s.distraction_warning_active ∧
    (step s i).1.bad_posture_start = s.bad_posture_start ∧
    (step s i).1.bad_posture_active = s.bad_posture_active ∧
    (∀ x ∈ (step s i).2,
      x ≠ Cmd.distractionBeeperStart ∧ x ≠ Cmd.distractionBeeperStop ∧
      x ≠ Cmd.postureOverlayActivate ∧ x ≠ Cmd.postureOverlayDeactivate ∧
      x ≠ Cmd.postureBeeperStart ∧ x ≠ Cmd.postureBeeperStop) := by
  unfold step
  dsimp only
  split
  · refine ⟨by simp only [energyBranch_preserved, yawnSection_preserved],
      by simp only [energyBranch_preserved, yawnSection_preserved],
      by simp only [energyBranch_preserved, yawnSection_preserved],
      by simp only [energyBranch_preserved, yawnSection_preserved], ?_⟩
    intro x hx2
    rcases List.mem_append.1 hx2 with h | h
    · have := yawnSection_cmds s i x h; simp [this]
    · have := energyBranch_cmds _ i x h; simp [this]
  · rename_i hen
    have hcond := no_ok_fire_of_exitFires_false s i (by simpa using hen) hx
    have hok := okSection_not_fire ((yawnSection s i).1) i hcond
    have hguard := guard_true_of_modeActive s i hcond hm
    rw [if_pos hguard]
    refine ⟨by simp only [nailSection_preserved, hok, yawnSection_preserved],
      by simp only [nailSection_preserved, hok, yawnSection_preserved],
      by simp only [nailSection_preserved, hok, yawnSection_preserved],
      by simp only [nailSection_preserved, hok, yawnSection_preserved], ?_⟩
    intro x hx2
    rcases List.mem_append.1 hx2 with h | h
    · rcases List.mem_append.1 h with h2 | h2
      · have := yawnSection_cmds s i x h2; simp [this]
      · rw [hok.2.2.2.2.2.2.2.2.2.2.2.2.2] at h2
        simp at h2
    · rcases nailSection_cmds _ i x h with h2 | h2 | ⟨n, h2⟩ <;> simp [h2]

lemma exitFires_false_of_no_fire (s : State) (i : Input)
    (hcond : ¬(i.ok_sign = true ∧ ∃ τ, (yawnSection s i).1.timers.ok_sign = some τ ∧
        (3 : ℚ)/2 < i.now - τ)) :
    exitFires s i = false := by
  unfold exitFires
  cases hok : i.ok_sign
  · simp
  · cases hos : s.timers.ok_sign
    · simp [hos]
    · rename_i τ
      have hnl : ¬((3 : ℚ)/2 < i.now - τ) := fun hlt =>
        hcond ⟨hok, τ, by rw [yawnSection_timers_eq]; exact hos, hlt⟩
      simp [hos, hnl]

/-- Claim C9, amended.  After a global exit fires, the OK-sign debounce
timer ends the frame cleared, and a frame that starts with the timer
cleared can never fire an exit — so a second exit needs a fresh hold of
more than 1.5 s.  Release is not required: `zen_C9_counterexample` shows
two exits with the signal continuously true. -/
theorem zen_C9_amended (s : State) (i : Input) :
    (exitFires s i = true → (step s i).1.timers.ok_sign = none) ∧
    (s.timers.ok_sign = none → exitFires s i = false) := by
  constructor
  · intro h
    obtain ⟨hen, hok, τ, ht, hlt⟩ := exitFires_true_parts s i h
    unfold step
    dsimp only
    rw [if_neg (by simp [hen])]
    rw [okSection_eq_of_fire ((yawnSection s i).1) i τ hok
      (by rw [yawnSection_timers_eq]; exact ht) hlt]
    dsimp only
    split
    · simp only [nailSection_preserved]
    · split
      · simp only [nailSection_preserved]
      · simp only [postureSection_preserved, distractionSection_preserved,
          entrySection_preserved, nailSection_preserved]
  · intro h
    unfold exitFires
    rw [h]
    simp

/-- Claim C7, amended.  The debounce-timer invariant holds on frames that
reach the gesture checks (no mode active, no energy break, no fatigue
trigger, nail-biting signal absent): each entry gesture's timer ends the
frame `some` (armed at `now` if previously unset, else retained) exactly
when its signal is true, and `none` the first frame the signal is false;
the fingers-near-mouth timer is cleared, and the OK-sign timer additionally
resets to `none` on the frame a global exit fires. -/
theorem zen_C7_amended (s : State) (i : Input)
    (hm : modeActive s = false)
    (hen : (yawnSection s i).1.energy_break_active = false)
    (hn : i.fingers_near_mouth = false) :
    (step s i).1.timers.open_palm =
      (if i.open_palm then some (s.timers.open_palm.getD i.now) else none) ∧
    (step s i).1.timers.both_hands_raised =
      (if i.both_hands_raised then some (s.timers.both_hands_raised.getD i.now) else none) ∧
    (step s i).1.timers.hands_covering_ears =
      (if i.hands_covering_ears then some (s.timers.hands_covering_ears.getD i.now) else none) ∧
    (step s i).1.timers.clenched_fist =
      (if i.clenched_fist then some (s.timers.clenched_fist.getD i.now) else none) ∧
    (step s i).1.timers.peace_sign =
      (if i.peace_sign then some (s.timers.peace_sign.getD i.now) else none) ∧
    (step s i).1.timers.palms_together =
      (if i.palms_together then some (s.timers.palms_together.getD i.now) else none) ∧
    (step s i).1.timers.fingers_near_mouth = none ∧
    (step s i).1.timers.ok_sign =
      (if i.ok_sign then
        (if exitFires s i then none else some (s.timers.ok_sign.getD i.now))
       else none) := by
  unfold step
  dsimp only
  rw [if_neg (by simp [hen])]
  by_cases hfire : i.ok_sign = true ∧ ∃ τ, (yawnSection s i).1.timers.ok_sign = some τ ∧
      (3 : ℚ)/2 < i.now - τ
  · obtain ⟨hok, τ, ht, hlt⟩ := hfire
    have hxv : exitFires s i = true := by
      unfold exitFires
      rw [yawnSection_timers_eq] at ht
      rw [hen, hok, ht]
      simp [hlt]
    rw [okSection_eq_of_fire ((yawnSection s i).1) i τ hok ht hlt]
    dsimp only
    have hga : modeActive (nailSection
        ({ (exitAllModes (yawnSection s i).1).1 with
            timers := { (exitAllModes (yawnSection s i).1).1.timers with ok_sign := none } }) i).1 = false := by
      unfold modeActive
      simp only [nailSection_preserved, nailSection_of_no_signal, hn, exitAllModes_eq]
      simp
    rw [if_neg (by simp [hga]), if_neg (by simp [hn])]
    simp only [postureSection_preserved, distractionSection_preserved,
      entrySection_timers, entrySection_preserved, gestureEntry_timer,
      nailSection_preserved, nailSection_of_no_signal, hn, hok, hxv]
    simp [exitAllModes_eq, yawnSection_timers_eq]
  · have hxv : exitFires s i = false := exitFires_false_of_no_fire s i hfire
    rw [okSection_eq_of_not_fire ((yawnSection s i).1) i hfire]
    dsimp only
    have hga : modeActive (nailSection
        ({ (yawnSection s i).1 with
            timers := { (yawnSection s i).1.timers with ok_sign :=
              (if i.ok_sign then some ((yawnSection s i).1.timers.ok_sign.getD i.now) else none) } }) i).1 = false := by
      unfold modeActive at hm ⊢
      simp only [nailSection_preserved, nailSection_of_no_signal, hn, yawnSection_preserved]
      exact hm
    rw [if_neg (by simp [hga]), if_neg (by simp [hn])]
    simp only [postureSection_preserved, distractionSection_preserved,
      entrySection_timers, entrySection_preserved, gestureEntry_timer,
      nailSection_preserved, nailSection_of_no_signal, hn, hxv]
    simp [yawnSection_timers_eq]

lemma step_no_posture_activate_of_active (s : State) (i : Input)
    (h : s.bad_posture_active = true) :
    Cmd.postureOverlayActivate ∉ (step s i).2 := by
  unfold step
  dsimp only
  split
  · intro hmem
    rcases List.mem_append.1 hmem with h2 | h2
    · have := yawnSection_cmds s i _ h2; simp_all
    · have := energyBranch_cmds _ i _ h2; simp_all
  · by_cases hfire : i.ok_sign = true ∧ ∃ τ, (yawnSection s i).1.timers.ok_sign = some τ ∧
        (3 : ℚ)/2 < i.now - τ
    · obtain ⟨hok, τ, ht, hlt⟩ := hfire
      rw [okSection_eq_of_fire ((yawnSection s i).1) i τ hok ht hlt]
      dsimp only
      have hbps : (exitAllModes (yawnSection s i).1).1.bad_posture_start = none := by
        rw [exitAllModes_eq]
        simp only [yawnSection_preserved, h]
        simp
      have hnail : ∀ t : State, Cmd.postureOverlayActivate ∉ (nailSection t i).2 := by
        intro t hmem
        rcases nailSection_cmds t i _ hmem with h2 | h2 | ⟨n, h2⟩ <;> simp_all
      have hyawn : Cmd.postureOverlayActivate ∉ (yawnSection s i).2 := by
        intro hmem; have := yawnSection_cmds s i _ hmem; simp_all
      have hexit : Cmd.postureOverlayActivate ∉ (exitAllModes (yawnSection s i).1).2 :=
        (exitAllModes_no_posture_or_distraction _).1
      split
      · intro hmem
        rcases List.mem_append.1 hmem with h2 | h2
        · rcases List.mem_append.1 h2 with h3 | h3
          · exact hyawn h3
          · exact hexit h3
        · exact hnail _ h2
      · split
        · intro hmem
          rcases List.mem_append.1 hmem with h2 | h2
          · rcases List.mem_append.1 h2 with h3 | h3
            · exact hyawn h3
            · exact hexit h3
          · exact hnail _ h2
        · intro hmem
          have hentry : ∀ t : State, Cmd.postureOverlayActivate ∉ (entrySection t i).2 := by
            intro t hmem2
            rcases entrySection_cmds t i _ hmem2 with h2 | h2 | h2 | h2 | h2 <;> simp_all
          have hdist : ∀ t : State, Cmd.postureOverlayActivate ∉ (distractionSection t i).2 := by
            intro t hmem2
            rcases distractionSection_cmds t i _ hmem2 with h2 | h2 | h2 | h2 <;> simp_all
          rcases List.mem_append.1 hmem with h2 | h2
          · rcases List.mem_append.1 h2 with h3 | h3
            · rcases List.mem_append.1 h3 with h4 | h4
              · rcases List.mem_append.1 h4 with h5 | h5
                · rcases List.mem_append.1 h5 with h6 | h6
                  · exact hyawn h6
                  · exact hexit h6
                · exact hnail _ h5
              · exact hentry _ h4
            · exact hdist _ h3
          · exact postureSection_no_activate_of_cleared _ i
              (by simp only [distractionSection_preserved, entrySection_preserved,
                    nailSection_preserved]
                  exact hbps) h2
    · have hok := okSection_not_fire ((yawnSection s i).1) i hfire
      have hyawn : Cmd.postureOverlayActivate ∉ (yawnSection s i).2 := by
        intro hmem; have := yawnSection_cmds s i _ hmem; simp_all
      have hnail : ∀ t : State, Cmd.postureOverlayActivate ∉ (nailSection t i).2 := by
        intro t hmem
        rcases nailSection_cmds t i _ hmem with h2 | h2 | ⟨n, h2⟩ <;> simp_all
      have hcb : (okSection (yawnSection s i).1 i).2 = [] :=
        hok.2.2.2.2.2.2.2.2.2.2.2.2.2
      split
      · intro hmem
        rcases List.mem_append.1 hmem with h2 | h2
        · rcases List.mem_append.1 h2 with h3 | h3
          · exact hyawn h3
          · rw [hcb] at h3; simp at h3
        · exact hnail _ h2
      · split
        · intro hmem
          rcases List.mem_append.1 hmem with h2 | h2
          · rcases List.mem_append.1 h2 with h3 | h3
            · exact hyawn h3
            · rw [hcb] at h3; simp at h3
          · exact hnail _ h2
        · intro hmem
          have hentry : ∀ t : State, Cmd.postureOverlayActivate ∉ (entrySection t i).2 := by
            intro t hmem2
            rcases entrySection_cmds t i _ hmem2 with h2 | h2 | h2 | h2 | h2 <;> simp_all
          have hdist : ∀ t : State, Cmd.postureOverlayActivate ∉ (distractionSection t i).2 := by
            intro t hmem2
            rcases distractionSection_cmds t i _ hmem2 with h2 | h2 | h2 | h2 <;> simp_all
          rcases List.mem_append.1 hmem with h2 | h2
          · rcases List.mem_append.1 h2 with h3 | h3
            · rcases List.mem_append.1 h3 with h4 | h4
              · rcases List.mem_append.1 h4 with h5 | h5
                · rcases List.mem_append.1 h5 with h6 | h6
                  · exact hyawn h6
                  · rw [hcb] at h6; simp at h6
                · exact hnail _ h5
              · exact hentry _ h4
            · exact hdist _ h3
          · exact postureSection_no_activate_of_active _ i
              (by simp only [distractionSection_preserved, entrySection_preserved,
                    nailSection_preserved, hok, yawnSection_preserved]
                  exact h) h2

lemma yawn_counter_formula (s : State) (i : Input) :
    (step s i).1.yawn_counter =
      (if breakExitFires s i = true then 0
       else if 5 ≤ (if i.yawn_detected && !s.last_yawn_detected then
                      s.yawn_counter + 1
                    else s.yawn_counter) ∧ s.energy_break_active = false
       then 0
       else (if i.yawn_detected && !s.last_yawn_detected then s.yawn_counter + 1
             else s.yawn_counter)) := by
  rw [step_counter]
  split
  · rfl
  · unfold yawnSection
    dsimp only
    split <;> rename_i h <;> split <;> rename_i h2 <;>
      first
        | rfl
        | (rw [if_pos h2])
        | simp_all
    all_goals split <;> rename_i h3 <;> simp_all

/-- Claim C2, amended.  `exit_all_modes` clears every mode and warning
flag, deactivates the zen, breathing, quiet, focus, energy-break and posture
collaborators that are flagged active, and zeroes the screen warmth; but the
distraction beeper is never stopped (only its flag is cleared), and the
nail-biting episode count is zeroed only when the anxiety phase
(`nail_biting_active`, entered at episode 6) is flagged — with fewer than 6
episodes the count survives the global exit. -/
theorem zen_C2_amended (s : State) :
    (exitAllModes s).1.zen_mode_active = false ∧
    (exitAllModes s).1.breathing_active = false ∧
    (exitAllModes s).1.quiet_mode_active = false ∧
    (exitAllModes s).1.focus_mode_active = false ∧
    (exitAllModes s).1.energy_break_active = false ∧
    (exitAllModes s).1.distraction_warning_active = false ∧
    (exitAllModes s).1.bad_posture_active = false ∧
    (exitAllModes s).1.nail_biting_active = false ∧
    (exitAllModes s).1.warmth = 0 ∧
    (exitAllModes s).1.nail_biting_count =
      (if s.nail_biting_active then 0 else s.nail_biting_count) ∧
    (s.zen_mode_active = true → Cmd.zenDimDeactivate ∈ (exitAllModes s).2) ∧
    (s.breathing_active = true → Cmd.breathingDeactivate ∈ (exitAllModes s).2) ∧
    (s.quiet_mode_active = true → Cmd.brownNoiseStop ∈ (exitAllModes s).2) ∧
    (s.focus_mode_active = true → Cmd.zenDimDeactivate ∈ (exitAllModes s).2) ∧
    (s.energy_break_active = true → Cmd.energyBreakDeactivate ∈ (exitAllModes s).2) ∧
    (s.bad_posture_active = true →
      Cmd.postureOverlayDeactivate ∈ (exitAllModes s).2 ∧
      Cmd.postureBeeperStop ∈ (exitAllModes s).2) ∧
    Cmd.setWarmth 0 ∈ (exitAllModes s).2 ∧
    Cmd.distractionBeeperStop ∉ (exitAllModes s).2 := by
  have he := exitAllModes_eq s
  have hc := exitAllModes_cmds_eq s
  refine ⟨by rw [he], by rw [he], by rw [he], by rw [he], by rw [he], by rw [he],
    by rw [he], by rw [he], by rw [he], by rw [he], ?_, ?_, ?_, ?_, ?_, ?_, ?_, ?_⟩
  · intro h; rw [hc]; simp [h]
  · intro h; rw [hc]; simp [h]
  · intro h; rw [hc]; simp [h]
  · intro h; rw [hc]; simp [h]
  · intro h; rw [hc]; simp [h]
  · intro h; rw [hc]; simp [h]
  · rw [hc]; simp
  · rw [hc]
    simp only [List.mem_append, not_or]
    split_ifs <;> simp

lemma run_append (s : State) (a b : List Input) :
    run s (a ++ b) =
      ((run (run s a).1 b).1, (run s a).2 ++ (run (run s a).1 b).2) := by
  induction a generalizing s with
  | nil => simp [run]
  | cons x xs ih => simp [run, ih]

lemma episode_step1 (k : Nat) (w : List Bool) (τ : ℚ) :
    step (mkAfter k w) (nailFrame τ) =
      (mkArmed k (pushWindow w false) τ, []) := by
  by_cases hk : 6 ≤ k <;>
    simp [step, yawnSection, okSection, nailSection, energyBranch, mkAfter,
      mkArmed, nailFrame, modeActive, clampWarmth, hk]

lemma episode_step2 (k : Nat) (w : List Bool) (τ : ℚ) :
    step (mkArmed k w τ) (nailFrame (τ + 1)) =
      (mkArmed k (pushWindow w false) τ, []) := by
  have h1 : (τ + 1) - τ = 1 := by ring
  by_cases hk : 6 ≤ k <;>
    simp [step, yawnSection, okSection, nailSection, energyBranch, mkAfter,
      mkArmed, nailFrame, modeActive, clampWarmth, hk, h1]

lemma episode_step3 (k : Nat) (w : List Bool) (τ : ℚ) :
    step (mkArmed k w τ) (nailFrame (τ + 21/10)) =
      (mkMid (k + 1) (pushWindow w false) τ, fireCmds (k + 1)) := by
  have h1 : (τ + 21/10) - τ = 21/10 := by ring
  have h2 : (2 : ℚ) < 21/10 := by norm_num
  rcases lt_trichotomy (k + 1) 6 with hk | hk | hk
  · have hk2 : k ≤ 4 := by omega
    interval_cases k <;>
      simp [step, yawnSection, okSection, nailSection, energyBranch, mkAfter,
        mkArmed, mkMid, midWarmth, fireCmds, nail_biting_warmth_levels,
        nailFrame, modeActive, clampWarmth, h1, h2]
  · have hk5 : k = 5 := by omega
    subst hk5
    simp [step, yawnSection, okSection, nailSection, energyBranch, mkAfter,
      mkArmed, mkMid, midWarmth, fireCmds, nail_biting_warmth_levels,
      nailFrame, modeActive, clampWarmth, h1, h2]
  · have hk6 : 6 ≤ k := by omega
    have hk7 : ¬(k + 1 < 6) := by omega
    have hk8 : ¬(k + 1 = 6) := by omega
    have hk9 : 6 ≤ k + 1 := by omega
    simp [step, yawnSection, okSection, nailSection, energyBranch, mkAfter,
      mkArmed, mkMid, midWarmth, fireCmds, nail_biting_warmth_levels,
      nailFrame, modeActive, clampWarmth, h1, h2, hk6, hk7, hk8, hk9]

lemma episode_step4 (m : Nat) (w : List Bool) (τ : ℚ) (hm : 1 ≤ m) :
    step (mkMid m w τ) (idleFrame (τ + 22/10)) =
      (mkAfter m (pushWindow w false), releaseCmds m) := by
  by_cases hm6 : m < 6
  · have hm2 : m ≤ 5 := by omega
    interval_cases m <;>
      simp [step, yawnSection, okSection, nailSection, energyBranch, mkAfter,
        mkMid, midWarmth, releaseCmds, nail_biting_warmth_levels, idleFrame,
        modeActive, clampWarmth, distractionSection, postureSection,
        entrySection, palmBlock, raisedBlock, earsBlock, fistBlock, peaceBlock,
        palmsBlock, gestureEntry]
  · have hk : 6 ≤ m := by omega
    simp [step, yawnSection, okSection, nailSection, energyBranch, mkAfter,
      mkMid, midWarmth, releaseCmds, nail_biting_warmth_levels, idleFrame,
      modeActive, clampWarmth, hk, hm6]

lemma run_episode (k : Nat) (w : List Bool) (τ : ℚ) :
    run (mkAfter k w) (episodeFrames τ) =
      (mkAfter (k + 1)
        (pushWindow (pushWindow (pushWindow (pushWindow w false) false) false) false),
       [[], [], fireCmds (k + 1), releaseCmds (k + 1)]) := by
  have h4 := episode_step4 (k + 1)
    (pushWindow (pushWindow (pushWindow w false) false) false) τ (by omega)
  simp only [episodeFrames, run, episode_step1, episode_step2, episode_step3, h4]

lemma runScenario_state (N : Nat) :
    ∃ w, (run initState (scenarioFrames N)).1 = mkAfter N w := by
  induction N with
  | zero => exact ⟨[], rfl⟩
  | succ n ih =>
    obtain ⟨w, hw⟩ := ih
    refine ⟨pushWindow (pushWindow (pushWindow (pushWindow w false) false) false) false, ?_⟩
    rw [scenarioFrames, run_append, hw, run_episode]


/-! Claim theorems: counterexamples, witnesses and the remaining claims. -/

/-- Claim C1, counterexample.  From the Idle state with the open-palm and
both-hands-raised timers armed at 0, the single frame at 2.1 s on which both
signals are still asserted makes BOTH gestures fire: Zen and Breathing are
both activated and both activation command sequences are issued, refuting
"only the one evaluated earliest transitions ModeState, and later gesture
checks are skipped". -/
theorem zen_C1_counterexample :
    modeActive bothArmedState = false ∧
    (step bothArmedState bothCrossInput).1.zen_mode_active = true ∧
    (step bothArmedState bothCrossInput).1.breathing_active = true ∧
    (step bothArmedState bothCrossInput).2 =
      [Cmd.zenDimActivate, Cmd.zenMeditationStart,
       Cmd.breathingActivate, Cmd.zenMeditationStart] := by decide

/-- Claim C1, witness for `zen_C1_amended` at a concrete mode-active state
and idle frame. -/
theorem zen_C1_witness :
    (step zenPalmState (idleFrame 1)).1.zen_mode_active =
      zenPalmState.zen_mode_active ∧
    (step zenPalmState (idleFrame 1)).1.breathing_active =
      zenPalmState.breathing_active ∧
    (step zenPalmState (idleFrame 1)).1.quiet_mode_active =
      zenPalmState.quiet_mode_active ∧
    (step zenPalmState (idleFrame 1)).1.focus_mode_active =
      zenPalmState.focus_mode_active :=
  zen_C1_amended zenPalmState (idleFrame 1) (by decide) (by decide) (by decide)

/-- Claim C2, counterexample.  With Zen active, the distraction warning
active (beeper running) and 3 nail-biting episodes counted, a global exit
fired by the OK sign held past 1.5 s clears Zen but leaves `episode_count`
at 3 (it is not zeroed below the threshold of 6) and never stops the
distraction beeper — so the exit is not the full reset the claim states. -/
theorem zen_C2_counterexample :
    modeActive exitTestState = true ∧
    exitFires exitTestState (okFrame (8/5)) = true ∧
    (step exitTestState (okFrame (8/5))).1.zen_mode_active = false ∧
    (step exitTestState (okFrame (8/5))).1.nail_biting_count = 3 ∧
    Cmd.distractionBeeperStop ∉ (step exitTestState (okFrame (8/5))).2 := by
  decide

/-- Claim C3.  Repeating the hold-then-release nail-biting episode N times
from the initial state yields `episode_count = N` for every N, with the
breathing overlay active exactly from episode 6 on; the 6-episode scenario
issues the warmth sequence 10, 20, 30, 40, 50 (each reset to 0 on release)
and activates breathing plus warmth 70 on the 6th episode; the first five
episodes never activate breathing; and breathing stays active after release
until a global exit clears it. -/
theorem zen_C3 :
    (∀ N : Nat, (run initState (scenarioFrames N)).1.nail_biting_count = N ∧
      (run initState (scenarioFrames N)).1.breathing_active = decide (6 ≤ N)) ∧
    (run initState (scenarioFrames 6)).2.flatten =
      [Cmd.setWarmth 10, Cmd.setWarmth 0, Cmd.setWarmth 20, Cmd.setWarmth 0,
       Cmd.setWarmth 30, Cmd.setWarmth 0, Cmd.setWarmth 40, Cmd.setWarmth 0,
       Cmd.setWarmth 50, Cmd.setWarmth 0,
       Cmd.breathingActivate, Cmd.zenMeditationStart, Cmd.setWarmth 70] ∧
    (run initState (scenarioFrames 5)).2.flatten.count Cmd.breathingActivate = 0 ∧
    (run (run initState (scenarioFrames 6)).1
        [idleFrame 100, idleFrame 101]).1.breathing_active = true ∧
    (run (run initState (scenarioFrames 6)).1
        [idleFrame 100, idleFrame 101, okFrame 102, okFrame 104]).1.breathing_active
      = false := by
  refine ⟨fun N => ?_, by decide, by decide, by decide, by decide⟩
  obtain ⟨w, hw⟩ := runScenario_state N
  rw [hw]
  exact ⟨rfl, rfl⟩

/-- Claim C4, counterexample.  On the frame the 5th yawn onset triggers the
energy break, the distinct counter is reset to 0 and exactly one activation
is issued, but the sliding window is NOT cleared — refuting "on that
trigger ... the window is cleared". -/
theorem zen_C4_counterexample :
    (run initState (fiveEdgeFrames.take 9)).1.energy_break_active = true ∧
    (run initState (fiveEdgeFrames.take 9)).1.yawn_counter = 0 ∧
    (run initState (fiveEdgeFrames.take 9)).2.flatten.count
      Cmd.energyBreakActivate = 1 ∧
    (run initState (fiveEdgeFrames.take 9)).1.yawn_window ≠ [] := by decide

/-- Claim C4, amended.  The distinct yawn count of every processed frame is
exactly the rising-edge formula: it increments only on a false-to-true
transition relative to the previous frame, is zeroed on the frame it reaches
5 while the energy break is inactive (the trigger), and is also zeroed on a
frame the in-break OK-sign exit fires (`energy_break.deactivate()`
synchronously invokes `_on_energy_break_exit`); a single continuously-true
yawn counts once; five separate onsets trigger exactly one energy-break
entry and reset the counter — but the window is not cleared on trigger (only
on break exit; it is never read, so this has no behavioral effect). -/
theorem zen_C4_amended :
    (∀ (s : State) (i : Input),
      (step s i).1.yawn_counter =
        (if breakExitFires s i = true then 0
         else if 5 ≤ (if i.yawn_detected && !s.last_yawn_detected then
                        s.yawn_counter + 1
                      else s.yawn_counter) ∧ s.energy_break_active = false
         then 0
         else (if i.yawn_detected && !s.last_yawn_detected then
                 s.yawn_counter + 1
               else s.yawn_counter))) ∧
    (run initState longYawnFrames).1.yawn_counter = 1 ∧
    (run initState longYawnFrames).1.energy_break_active = false ∧
    (run initState fiveEdgeFrames).2.flatten.count Cmd.energyBreakActivate = 1 ∧
    (run initState fiveEdgeFrames).1.yawn_counter = 0 :=
  ⟨yawn_counter_formula, by decide, by decide, by decide, by decide⟩

/-- Claim C5.  The posture timer behaves as specified: 29.9 s of bad
posture followed by a clean frame resets `condition_start` with no alarm
and no command; crossing 30 s triggers the alarm (overlay, beeper, warmth)
exactly once for a continuously-true condition; the first clean frame
clears `condition_start` and deactivates overlay, beeper and warmth at
once; and — generally — no frame starting with the alarm active can issue
a second overlay activation. -/
theorem zen_C5 (s : State) (i : Input) (h : s.bad_posture_active = true) :
    ((run initState postureShortFrames).2.flatten = [] ∧
     (run initState postureShortFrames).1.bad_posture_start = none ∧
     (run initState postureShortFrames).1.bad_posture_active = false ∧
     (run initState postureAlarmFrames).2 =
       [[], [],
        [Cmd.postureOverlayActivate, Cmd.postureBeeperStart, Cmd.setWarmth 50],
        [Cmd.setWarmth 0], [],
        [Cmd.postureOverlayDeactivate, Cmd.postureBeeperStop, Cmd.setWarmth 0]] ∧
     (run initState postureAlarmFrames).1.bad_posture_start = none ∧
     (run initState postureAlarmFrames).1.bad_posture_active = false) ∧
    Cmd.postureOverlayActivate ∉ (step s i).2 :=
  ⟨by decide, step_no_posture_activate_of_active s i h⟩

/-- Claim C5, witness for `zen_C5` at the alarmed state and a frame with
the condition still true. -/
theorem zen_C5_witness :
    Cmd.postureOverlayActivate ∉ (step postureActiveState (postureFrame 31)).2 :=
  (zen_C5 postureActiveState (postureFrame 31) rfl).2

/-- Claim C6, counterexample.  With Zen active and the looking-down and
bad-posture timers armed at 0, a frame at 31 s on which both conditions
are still asserted (past the 3 s and 30 s thresholds) activates nothing:
the monitors are not evaluated while a mode is active, refuting "evaluated
on every frame except while EnergyBreak is active". -/
theorem zen_C6_counterexample :
    modeActive zenMonitorState = true ∧
    zenMonitorState.energy_break_active = false ∧
    (step zenMonitorState monitorInput).1.distraction_warning_active = false ∧
    (step zenMonitorState monitorInput).1.bad_posture_active = false ∧
    (step zenMonitorState monitorInput).2 = [] := by decide

/-- Claim C6, witness for `zen_C6_amended` at a concrete mode-active state. -/
theorem zen_C6_witness :
    (step zenMonitorState monitorInput).1.looking_down_start =
      zenMonitorState.looking_down_start ∧
    (step zenMonitorState monitorInput).1.distraction_warning_active =
      zenMonitorState.distraction_warning_active ∧
    (step zenMonitorState monitorInput).1.bad_posture_start =
      zenMonitorState.bad_posture_start ∧
    (step zenMonitorState monitorInput).1.bad_posture_active =
      zenMonitorState.bad_posture_active ∧
    (∀ x ∈ (step zenMonitorState monitorInput).2,
      x ≠ Cmd.distractionBeeperStart ∧ x ≠ Cmd.distractionBeeperStop ∧
      x ≠ Cmd.postureOverlayActivate ∧ x ≠ Cmd.postureOverlayDeactivate ∧
      x ≠ Cmd.postureBeeperStart ∧ x ≠ Cmd.postureBeeperStop) :=
  zen_C6_amended zenMonitorState monitorInput (by decide) (by decide)

/-- Claim C7, counterexample.  While Zen is active the open-palm timer is
frozen: on a frame whose open-palm signal is false the timer stays `some 0`
instead of being cleared, refuting "set to None the instant the signal is
false". -/
theorem zen_C7_counterexample :
    (idleFrame 1).open_palm = false ∧
    (step zenPalmState (idleFrame 1)).1.timers.open_palm = some 0 := by decide

/-- Claim C7, witness for `zen_C7_amended` at the Idle state with two
timers armed and both signals held. -/
theorem zen_C7_witness :
    (step bothArmedState bothCrossInput).1.timers.open_palm =
      (if bothCrossInput.open_palm then
        some (bothArmedState.timers.open_palm.getD bothCrossInput.now)
       else none) ∧
    (step bothArmedState bothCrossInput).1.timers.fingers_near_mouth = none ∧
    (step bothArmedState bothCrossInput).1.timers.ok_sign =
      (if bothCrossInput.ok_sign then
        (if exitFires bothArmedState bothCrossInput then none
         else some (bothArmedState.timers.ok_sign.getD bothCrossInput.now))
       else none) := by
  have h := zen_C7_amended bothArmedState bothCrossInput (by decide) (by decide)
    (by decide)
  exact ⟨h.1, h.2.2.2.2.2.2.1, h.2.2.2.2.2.2.2⟩

/-- Claim C8, counterexample.  With the open palm held on 61 consecutive
frames at 30 fps from the initial state (elapsed exactly 2.0 s), Zen mode
is NOT entered and no activation is issued: the strictly-greater-than-2 s
rule excludes the 2.0 s boundary, refuting "entered on frame 61, boundary
inclusive". -/
theorem zen_C8_counterexample :
    (run initState (palmFrames 61)).1.zen_mode_active = false ∧
    (run initState (palmFrames 61)).2.flatten.count Cmd.zenDimActivate = 0 := by
  decide

/-- Claim C8, amended.  Zen mode is entered on frame 62 (elapsed 61/30 s,
the first sample strictly above 2 s); exactly one dim activation and one
meditation start are issued even when the palm stays held through frame 70,
and no other mode is entered. -/
theorem zen_C8_amended :
    (run initState (palmFrames 62)).1.zen_mode_active = true ∧
    (run initState (palmFrames 62)).2.flatten.count Cmd.zenDimActivate = 1 ∧
    (run initState (palmFrames 70)).1.zen_mode_active = true ∧
    (run initState (palmFrames 70)).2.flatten.count Cmd.zenDimActivate = 1 ∧
    (run initState (palmFrames 70)).2.flatten.count Cmd.zenMeditationStart = 1 ∧
    (run initState (palmFrames 70)).1.breathing_active = false ∧
    (run initState (palmFrames 70)).1.quiet_mode_active = false ∧
    (run initState (palmFrames 70)).1.focus_mode_active = false := by decide

/-- Claim C9, counterexample.  Holding the OK sign continuously across four
frames spanning 3.3 s fires the global exit twice (frames 2 and 4, each
emitting the exit command sequence) with the signal true on every frame —
no release is required between two exits, refuting "it must be released and
re-asserted to exit twice". -/
theorem zen_C9_counterexample :
    (∀ i ∈ okHeldFrames, i.ok_sign = true) ∧
    (run initState okHeldFrames).2 =
      [[], [Cmd.setWarmth 0], [], [Cmd.setWarmth 0]] ∧
    exitFires (run initState (okHeldFrames.take 1)).1 (okFrame (8/5)) = true ∧
    exitFires (run initState (okHeldFrames.take 3)).1 (okFrame (33/10)) = true := by
  decide

/-- Claim C9, witness for `zen_C9_amended`: an exit frame ends with the
timer cleared, and a cleared timer cannot fire. -/
theorem zen_C9_witness :
    (step exitTestState (okFrame (8/5))).1.timers.ok_sign = none ∧
    exitFires initState (okFrame 0) = false :=
  ⟨(zen_C9_amended exitTestState (okFrame (8/5))).1 (by decide),
   (zen_C9_amended initState (okFrame 0)).2 rfl⟩

/-- Claim C10, counterexample.  The claimed execution does not exist: five
yawn onsets do accumulate inside the energy break, but the OK-sign exit
frame zeroes the distinct counter — `energy_break.deactivate()` (line 237)
synchronously invokes `_on_energy_break_exit`, which resets it — so after
the exit the counter is 0 (not 5), and the next yawn-free frame leaves the
break inactive and issues no command: no immediate re-activation occurs. -/
theorem zen_C10_counterexample :
    (run initState fatigueFrames).1.energy_break_active = true ∧
    (run initState (fatigueFrames ++ breakYawnExitFrames)).1.energy_break_active
      = false ∧
    (run initState (fatigueFrames ++ breakYawnExitFrames)).1.yawn_counter = 0 ∧
    (run initState (fatigueFrames ++ breakYawnExitFrames)).1.yawn_window = [] ∧
    (idleFrame 21).yawn_detected = false ∧
    (step (run initState (fatigueFrames ++ breakYawnExitFrames)).1
      (idleFrame 21)).1.energy_break_active = false ∧
    (step (run initState (fatigueFrames ++ breakYawnExitFrames)).1
      (idleFrame 21)).2 = [] := by decide

/-- Claim C10, amended.  Exiting EnergyBreak via the OK-sign path resets
BOTH the window and the distinct counter, because the collaborator's
`deactivate()` synchronously invokes the self-exit callback
`_on_energy_break_exit`, which zeroes the counter and clears the window
(the callback itself resets both, as the source states); hence on any frame
the in-break OK exit fires, the frame ends with the break inactive, the
counter at 0 and the window empty, and EnergyBreak cannot immediately
re-activate without new yawns. -/
theorem zen_C10_amended (s : State) (i : Input)
    (h : breakExitFires s i = true) :
    ((step s i).1.energy_break_active = false ∧
     (step s i).1.yawn_counter = 0 ∧
     (step s i).1.yawn_window = []) ∧
    (∀ t : State, (onEnergyBreakExit t).energy_break_active = false ∧
      (onEnergyBreakExit t).yawn_counter = 0 ∧
      (onEnergyBreakExit t).yawn_window = []) := by
  refine ⟨?_, fun t => ⟨rfl, rfl, rfl⟩⟩
  unfold breakExitFires at h
  simp only [Bool.and_eq_true, decide_eq_true_eq] at h
  obtain ⟨⟨⟨hen, hh⟩, ho⟩, hm⟩ := h
  cases ht : s.timers.ok_sign
  · rw [ht] at hm
    exact absurd hm (by simp)
  · rename_i τ
    rw [ht] at hm
    unfold step
    dsimp only
    rw [if_pos hen]
    unfold energyBranch
    rw [yawnSection_timers_eq, ht, hh, ho]
    have hm' : (3 : ℚ)/2 < i.now - τ := by simpa using hm
    simp only [Bool.and_self, if_true]
    rw [if_pos hm']
    exact ⟨rfl, rfl, rfl⟩

/-- Claim C10, witness for `zen_C10_amended` at the concrete in-break exit
frame of the fatigue scenario. -/
theorem zen_C10_witness :
    ((step (run initState (fatigueFrames ++ breakYawnExitFrames.take 11)).1
        (okFrame (103/5))).1.energy_break_active = false ∧
     (step (run initState (fatigueFrames ++ breakYawnExitFrames.take 11)).1
        (okFrame (103/5))).1.yawn_counter = 0 ∧
     (step (run initState (fatigueFrames ++ breakYawnExitFrames.take 11)).1
        (okFrame (103/5))).1.yawn_window = []) ∧
    (∀ t : State, (onEnergyBreakExit t).energy_break_active = false ∧
      (onEnergyBreakExit t).yawn_counter = 0 ∧
      (onEnergyBreakExit t).yawn_window = []) :=
  zen_C10_amended
    (run initState (fatigueFrames ++ breakYawnExitFrames.take 11)).1
    (okFrame (103/5)) (by decide)

/-- Claim C2, witness for `zen_C2_amended` at the concrete exit-test
state. -/
theorem zen_C2_witness :
    (exitAllModes exitTestState).1.zen_mode_active = false ∧
    (exitAllModes exitTestState).1.distraction_warning_active = false ∧
    (exitAllModes exitTestState).1.warmth = 0 ∧
    (exitAllModes exitTestState).1.nail_biting_count =
      (if exitTestState.nail_biting_active then 0
       else exitTestState.nail_biting_count) ∧
    Cmd.zenDimDeactivate ∈ (exitAllModes exitTestState).2 ∧
    Cmd.setWarmth 0 ∈ (exitAllModes exitTestState).2 ∧
    Cmd.distractionBeeperStop ∉ (exitAllModes exitTestState).2 := by
  have h := zen_C2_amended exitTestState
  exact ⟨h.1, h.2.2.2.2.2.1, h.2.2.2.2.2.2.2.2.1, h.2.2.2.2.2.2.2.2.2.1,
    h.2.2.2.2.2.2.2.2.2.2.1 rfl, h.2.2.2.2.2.2.2.2.2.2.2.2.2.2.2.2.1,
    h.2.2.2.2.2.2.2.2.2.2.2.2.2.2.2.2.2⟩

end ZenSpace
